import Mathlib

/-!
Verification of internal/pkg/oci/remote/remote.go.

A shallow embedding of the three functions of `remote.go` (`ArtifactType`,
`Referrers`, `WriteSignaturesExperimentalOCI`) and of the `taggableManifest`
type, followed by the properties proved about them.

The functions are glue over the registry client library
(go-containerregistry) and over cosign's `oci` package.  The calls into these
collaborators are taken as parameters:

* `Lib`     the collaborators without side effects (`name.ParseReference`,
            `json.Unmarshal`, `json.Marshal`, `v1.SHA256`);
* `Remote`  the registry calls (`remote.Head`, `remote.WriteLayer`,
            `remote.Put`, `remote.Referrers`), each a transition on a state
            `σ` of the outside world;
* `SignedEntity`, `Signatures`  the `oci` interfaces, whose methods may reach
            the outside world as well.

A run returns the Go `error` result together with the trace of every
collaborator call it made, in order, each with what the call returned, and the
final state of the outside world.
-/

namespace Cosign

/-! ## Data model -/

/-- Go's `string`. A Go string is a sequence of bytes; the model takes the
strings that hold text (valid UTF-8). -/
abbrev GoString := String

/-- Go's `error` values (`none : Option GoError` is the `nil` error). -/
abbrev GoError := String

/-- Go's `[]byte`. -/
abbrev Bytes := List Nat

/-- Library type `types.MediaType`, a defined string type. -/
abbrev MediaType := String

/-- Modelled from the spec: the library type `v1.Hash` ("digest (content hash,
algorithm+hex)"), not under src. -/
structure Hash where
  Algorithm : GoString
  Hex : GoString
deriving DecidableEq, Repr

/-- Modelled from the spec: `v1.Hash.String`, the form `sha256:<hex>` in which a
digest appears in a reference. -/
def Hash.String (h : Hash) : GoString :=
  h.Algorithm ++ ":" ++ h.Hex

/-- Modelled from the spec: the library type `v1.Platform`, not under src. -/
structure Platform where
  Architecture : GoString
  OS : GoString
  Variant : GoString
deriving DecidableEq, Repr

/-- Modelled from the spec: the library type `v1.Descriptor` ("a compact
reference to content: digest, size, and media type"), not under src, with the
remaining fields of the library's struct. -/
structure Descriptor where
  MediaType : MediaType
  Size : Int
  Digest : Hash
  Data : Bytes
  URLs : List GoString
  Annotations : List (GoString × GoString)
  Platform : Option Platform
  ArtifactType : GoString
deriving DecidableEq, Repr

/-- Modelled from the spec: the library type `v1.Manifest` (the OCI image
manifest: `schemaVersion`, top-level `mediaType`, `config`, `layers`,
`annotations`, `subject`), not under src.  `Subject` is a pointer in Go:
`none` is `nil`. -/
structure Manifest where
  SchemaVersion : Int
  MediaType : MediaType
  Config : Descriptor
  Layers : List Descriptor
  Annotations : List (GoString × GoString)
  Subject : Option Descriptor
deriving DecidableEq, Repr

/-- Modelled from the spec: the library type `v1.IndexManifest`, the result of a
referrers listing, not under src. -/
structure IndexManifest where
  SchemaVersion : Int
  MediaType : MediaType
  Manifests : List Descriptor
  Annotations : List (GoString × GoString)
  Subject : Option Descriptor
deriving DecidableEq, Repr

/-- Modelled from the spec: the library type `name.Repository`, not under src,
seen through the two methods the code calls on it. -/
structure Repository where
  RegistryStr : GoString
  RepositoryStr : GoString
deriving DecidableEq, Repr

/-- Modelled from the spec: the library type `name.Digest` ("reference to the
artifact ..., already resolved to a specific digest"), not under src: the
embedded `Repository`, the digest and what `String()` returns. -/
structure Digest where
  Repository : Repository
  DigestStr : GoString
  String : GoString
deriving DecidableEq, Repr

/-- Method `RegistryStr` of a `name.Digest`, promoted from the embedded
`Repository`. -/
def Digest.RegistryStr (d : Digest) : GoString := d.Repository.RegistryStr

/-- Method `RepositoryStr` of a `name.Digest`, promoted from the embedded
`Repository`. -/
def Digest.RepositoryStr (d : Digest) : GoString := d.Repository.RepositoryStr

/-- Modelled from the spec: the library interface `name.Reference` ("a registry
coordinate (registry host + repository path + digest)"), not under src, seen
through its methods. -/
structure Reference where
  Context : Repository
  Identifier : GoString
  String : GoString
deriving DecidableEq, Repr

/-- Modelled from the spec: the library interface `authn.Keychain`, not under
src; `DefaultKeychain` is `authn.DefaultKeychain`. -/
inductive Keychain where
  | DefaultKeychain
  | custom (id : Nat)
deriving DecidableEq, Repr

/-- Modelled from the spec: the library type `remote.Option`, not under src: the
two options this file builds, and any other option a caller may pass. -/
inductive ROption where
  | WithAuthFromKeychain (keys : Keychain)
  | WithFilter (key value : GoString)
  | other (id : Nat)
deriving DecidableEq, Repr

/-- Modelled from the spec: the interface `oci.Signature` (a signature layer
blob), not under src. -/
structure Signature where
  Digest : Hash
  Payload : Bytes
deriving DecidableEq, Repr

/-- Modelled from the spec: the constant `ctypes.SimpleSigningMediaType` of
cosign's `pkg/types`, not under src ("one layer of media type
`application/vnd.dev.cosign.simplesigning.v1+json`"). -/
def SimpleSigningMediaType : GoString :=
  "application/vnd.dev.cosign.simplesigning.v1+json"

/-- A Go slice: `none` is the `nil` slice, `some l` a slice that is not `nil`
(`some []` is empty and not `nil`). -/
abbrev Slice (α : Type) := Option (List α)

/-- Equality of `Except` values is decidable. -/
instance instDecidableEqExcept {ε α : Type} [DecidableEq ε] [DecidableEq α] :
    DecidableEq (Except ε α) := fun a b =>
  match a, b with
  | .ok x, .ok y => if h : x = y then isTrue (by rw [h]) else isFalse (by intro c; cases c; exact h rfl)
  | .error x, .error y =>
    if h : x = y then isTrue (by rw [h]) else isFalse (by intro c; cases c; exact h rfl)
  | .ok _, .error _ => isFalse (by intro c; cases c)
  | .error _, .ok _ => isFalse (by intro c; cases c)

/-! ## `fmt.Sprintf` -/

/-- The operands reported after `%!(EXTRA `, each as `string=<value>`. -/
def extraOperands : List GoString → List Char
  | [] => []
  | [a] => "string=".toList ++ a.toList
  | a :: as => "string=".toList ++ a.toList ++ ", ".toList ++ extraOperands as

/-- The formatting loop of Go's `fmt` for operands of type `string` and verbs
without flags, width or precision (the format strings of this file have none):
text is copied, `%%` is a percent sign, `%s` and `%v` copy the next operand as
it is, a verb without operand gives `%!verb(MISSING)`, a `%` at the end gives
`%!(NOVERB)`, operands left over are listed after `%!(EXTRA `.  Any other verb
is rendered as Go renders a verb that does not apply to the operand (`%x`,
`%X` and `%q`, which do apply to strings, are outside this fragment). -/
def doPrintf : List Char → List GoString → List Char
  | [], [] => []
  | [], a :: as => "%!(EXTRA ".toList ++ extraOperands (a :: as) ++ [')']
  | c :: fmt, args =>
    if c = '%' then
      match fmt, args with
      | [], [] => "%!(NOVERB)".toList
      | [], a :: as =>
        "%!(NOVERB)".toList ++ "%!(EXTRA ".toList ++ extraOperands (a :: as) ++ [')']
      | verb :: rest, args =>
        if verb = '%' then '%' :: doPrintf rest args
        else
          match args with
          | [] => "%!".toList ++ [verb] ++ "(MISSING)".toList ++ doPrintf rest []
          | a :: as =>
            if verb = 's' ∨ verb = 'v' then a.toList ++ doPrintf rest as
            else
              "%!".toList ++ [verb] ++ "(string=".toList ++ a.toList ++ [')']
                ++ doPrintf rest as
    else c :: doPrintf fmt args

/-- Go's `fmt.Sprintf(format, a...)` on string operands. -/
def Sprintf (format : GoString) (a : List GoString) : GoString :=
  String.mk (doPrintf format.toList a)

/-! ## Collaborators -/

/-- The collaborators without side effects. `Unmarshal b` is
`json.Unmarshal(b, &m)` on a zero `v1.Manifest`; `SHA256` returns the hash and
the number of bytes read. -/
structure Lib where
  ParseReference : GoString → Except GoError Reference
  Unmarshal : Bytes → Except GoError Manifest
  Marshal : Manifest → Except GoError Bytes
  SHA256 : Bytes → Except GoError (Hash × Int)

/-- The type `taggableManifest` (remote.go, lines 108-111). -/
structure taggableManifest where
  raw : Bytes
  mediaType : MediaType
deriving DecidableEq, Repr

/-- Method `RawManifest` of `taggableManifest` (lines 113-115). -/
def taggableManifest.RawManifest (taggable : taggableManifest) : Except GoError Bytes :=
  .ok taggable.raw

/-- Method `MediaType` of `taggableManifest` (lines 117-119). -/
def taggableManifest.MediaType (taggable : taggableManifest) : Except GoError MediaType :=
  .ok taggable.mediaType

/-- The registry calls of package `remote` of the client library, as
transitions on the state `σ` of the outside world. Each takes the option list
it is called with. -/
structure Remote (σ : Type) where
  Head : Reference → List ROption → σ → Except GoError Descriptor × σ
  WriteLayer : Repository → Signature → List ROption → σ → Option GoError × σ
  Put : Reference → taggableManifest → List ROption → σ → Option GoError × σ
  Referrers : Digest → List ROption → σ → (Option IndexManifest × Option GoError) × σ

/-- The interface `oci.Signatures`: the methods the code calls. -/
structure Signatures (σ : Type) where
  Get : σ → Except GoError (List Signature) × σ
  RawManifest : σ → Except GoError Bytes × σ

/-- The interface `oci.SignedEntity`: the method the code calls. A call that
returns no error returns a value: a nil interface returned with a nil error is
not modelled. -/
structure SignedEntity (σ : Type) where
  Signatures : σ → Except GoError (Signatures σ) × σ

/-- One collaborator call of a run, with its arguments and what it returned.
`Signatures` keeps only the error of `se.Signatures()`; `Fprintf` is the line
written to the standard error stream, whose result the code drops. -/
inductive Event where
  | ParseReference (s : GoString) (res : Except GoError Reference)
  | Head (ref : Reference) (opts : List ROption) (res : Except GoError Descriptor)
  | Signatures (err : Option GoError)
  | Get (res : Except GoError (List Signature))
  | WriteLayer (repo : Repository) (layer : Signature) (opts : List ROption)
      (err : Option GoError)
  | RawManifest (res : Except GoError Bytes)
  | Unmarshal (b : Bytes) (res : Except GoError Manifest)
  | Marshal (m : Manifest) (res : Except GoError Bytes)
  | SHA256 (b : Bytes) (res : Except GoError (Hash × Int))
  | Fprintf (msg : GoString)
  | Put (ref : Reference) (t : taggableManifest) (opts : List ROption) (err : Option GoError)
  | Referrers (d : Digest) (opts : List ROption) (res : Option IndexManifest × Option GoError)
deriving DecidableEq

/-- The error of an `Except` result, `none` when it is a value. -/
def errOf {α : Type} : Except GoError α → Option GoError
  | .ok _ => none
  | .error e => some e

/-- The error a call returned (`none`: it succeeded). -/
def Event.err : Event → Option GoError
  | .ParseReference _ res => errOf res
  | .Head _ _ res => errOf res
  | .Signatures err => err
  | .Get res => errOf res
  | .WriteLayer _ _ _ err => err
  | .RawManifest res => errOf res
  | .Unmarshal _ res => errOf res
  | .Marshal _ res => errOf res
  | .SHA256 _ res => errOf res
  | .Fprintf _ => none
  | .Put _ _ _ err => err
  | .Referrers _ _ res => res.2

/-- The option list a registry call was made with (`none`: not a registry
call). -/
def Event.opts : Event → Option (List ROption)
  | .Head _ opts _ => some opts
  | .WriteLayer _ _ opts _ => some opts
  | .Put _ _ opts _ => some opts
  | .Referrers _ opts _ => some opts
  | _ => none

/-- The call is a blob write. -/
def Event.isWriteLayer : Event → Bool
  | .WriteLayer _ _ _ _ => true
  | _ => false

/-- The call is a manifest write. -/
def Event.isPut : Event → Bool
  | .Put _ _ _ _ => true
  | _ => false

/-- The call is one of the registry calls `Head`, `WriteLayer`, `Put`. -/
def Event.isRegistryCall : Event → Bool
  | .Head _ _ _ => true
  | .WriteLayer _ _ _ _ => true
  | .Put _ _ _ _ => true
  | _ => false

/-- What a run of `WriteSignaturesExperimentalOCI` leaves: the `error` it
returns, the calls it made, the state of the outside world. -/
structure Run (σ : Type) where
  err : Option GoError
  trace : List Event
  world : σ

/-! ## The functions of remote.go -/

/-- `ArtifactType` (lines 33-36). -/
def ArtifactType (attName : GoString) : GoString :=
  Sprintf "application/vnd.dev.cosign.artifact.%s.v1+json" [attName]

/-- The option list `Referrers` hands to `remote.Referrers` (lines 40-45): the
default keychain when `rOpts` is `nil`, then the `artifactType` filter
appended. -/
def referrersOptions (artifactType : GoString) (rOpts : Slice ROption) : List ROption :=
  let rOpts : List ROption :=
    match rOpts with
    | none => [ROption.WithAuthFromKeychain Keychain.DefaultKeychain]
    | some l => l
  rOpts ++ [ROption.WithFilter "artifactType" artifactType]

/-- `Referrers` (lines 38-47): the pair returned, the call made and the state
of the outside world after it. -/
def Referrers {σ : Type} (reg : Remote σ) (d : Digest) (artifactType : GoString)
    (rOpts : Slice ROption) (w : σ) :
    (Option IndexManifest × Option GoError) × List Event × σ :=
  let rOpts := referrersOptions artifactType rOpts
  match reg.Referrers d rOpts w with
  | (res, w1) => (res, [Event.Referrers d rOpts res], w1)

/-- The loop over the signature layers (lines 73-77). -/
def writeLayers {σ : Type} (reg : Remote σ) (repo : Repository) :
    List Signature → σ → Run σ
  | [], w => ⟨none, [], w⟩
  | v :: vs, w =>
    match reg.WriteLayer repo v [] w with
    | (some err, w1) => ⟨some err, [Event.WriteLayer repo v [] (some err)], w1⟩
    | (none, w1) =>
      let r := writeLayers reg repo vs w1
      ⟨r.err, Event.WriteLayer repo v [] none :: r.trace, r.world⟩

/-- The two assignments to the parsed manifest (lines 88-90). -/
def mutateManifest (m : Manifest) (desc : Descriptor) : Manifest :=
  let artifactType := ArtifactType "sig"
  let m := { m with Config := { m.Config with MediaType := artifactType } }
  { m with Subject := some desc }

/-- `WriteSignaturesExperimentalOCI` (lines 51-106). The options `opts` are not
used by the body: every use of them is commented out in the source. -/
def WriteSignaturesExperimentalOCI {σ : Type} (lib : Lib) (reg : Remote σ)
    (d : Digest) (se : SignedEntity σ) (opts : List ROption) (w : σ) : Run σ :=
  let _ := opts
  let signTarget := d.String
  match lib.ParseReference signTarget with
  | .error err => ⟨some err, [.ParseReference signTarget (.error err)], w⟩
  | .ok ref =>
  match reg.Head ref [] w with
  | (.error err, w1) =>
    ⟨some err, [.ParseReference signTarget (.ok ref), .Head ref [] (.error err)], w1⟩
  | (.ok desc, w1) =>
  let t1 : List Event := [.ParseReference signTarget (.ok ref), .Head ref [] (.ok desc)]
  match se.Signatures w1 with
  | (.error err, w2) => ⟨some err, t1 ++ [.Signatures (some err)], w2⟩
  | (.ok sigs, w2) =>
  -- Write the signature blobs
  match sigs.Get w2 with
  | (.error err, w3) => ⟨some err, t1 ++ [.Signatures none, .Get (.error err)], w3⟩
  | (.ok s, w3) =>
  let t2 : List Event := t1 ++ [.Signatures none, .Get (.ok s)]
  match writeLayers reg d.Repository s w3 with
  | ⟨some err, tw, w4⟩ => ⟨some err, t2 ++ tw, w4⟩
  | ⟨none, tw, w4⟩ =>
  -- Write the manifest containing a subject
  match sigs.RawManifest w4 with
  | (.error err, w5) => ⟨some err, t2 ++ tw ++ [.RawManifest (.error err)], w5⟩
  | (.ok b, w5) =>
  match lib.Unmarshal b with
  | .error err => ⟨some err, t2 ++ tw ++ [.RawManifest (.ok b), .Unmarshal b (.error err)], w5⟩
  | .ok m =>
  let t3 : List Event := t2 ++ tw ++ [.RawManifest (.ok b), .Unmarshal b (.ok m)]
  let artifactType := ArtifactType "sig"
  let m := mutateManifest m desc
  match lib.Marshal m with
  | .error err => ⟨some err, t3 ++ [.Marshal m (.error err)], w5⟩
  | .ok b =>
  match lib.SHA256 b with
  | .error err => ⟨some err, t3 ++ [.Marshal m (.ok b), .SHA256 b (.error err)], w5⟩
  | .ok (digest, n) =>
  let target := Sprintf "%s/%s@%s" [d.RegistryStr, d.RepositoryStr, digest.String]
  match lib.ParseReference target with
  | .error err =>
    ⟨some err, t3 ++ [.Marshal m (.ok b), .SHA256 b (.ok (digest, n)),
      .ParseReference target (.error err)], w5⟩
  | .ok targetRef =>
  let msg := Sprintf
    "Uploading signature for [%s] to [%s] with config.mediaType [%s] layers[0].mediaType [%s].\n"
    [d.String, targetRef.String, artifactType, SimpleSigningMediaType]
  let t : taggableManifest := { raw := b, mediaType := m.MediaType }
  match reg.Put targetRef t [] w5 with
  | (err, w6) =>
    ⟨err, t3 ++ [.Marshal m (.ok b), .SHA256 b (.ok (digest, n)),
      .ParseReference target (.ok targetRef), .Fprintf msg, .Put targetRef t [] err], w6⟩

/-! ## Predicates on traces -/

/-- Every call of the list succeeded. -/
def AllOk (tr : List Event) : Prop := ∀ ev ∈ tr, ev.err = none

/-- Whether every call of a list succeeded can be computed. -/
instance instDecidableAllOk (tr : List Event) : Decidable (AllOk tr) :=
  inferInstanceAs (Decidable (∀ ev ∈ tr, ev.err = none))

/-- The calls of a trace before the last one succeeded and the last one returned
the error `e` (`none`: it succeeded too). -/
def StopsWith (tr : List Event) (e : Option GoError) : Prop :=
  ∃ pre last, tr = pre ++ [last] ∧ AllOk pre ∧ last.err = e

/-- The result an event records for a call without side effects is what the
library returns for the arguments of the call. -/
def Event.agrees (lib : Lib) : Event → Prop
  | .ParseReference s res => lib.ParseReference s = res
  | .Unmarshal b res => lib.Unmarshal b = res
  | .Marshal m res => lib.Marshal m = res
  | .SHA256 b res => lib.SHA256 b = res
  | _ => True

/-- Whether an event agrees with the library can be computed. -/
instance instDecidableAgrees (lib : Lib) (ev : Event) : Decidable (ev.agrees lib) :=
  match ev with
  | .ParseReference s res => inferInstanceAs (Decidable (lib.ParseReference s = res))
  | .Unmarshal b res => inferInstanceAs (Decidable (lib.Unmarshal b = res))
  | .Marshal m res => inferInstanceAs (Decidable (lib.Marshal m = res))
  | .SHA256 b res => inferInstanceAs (Decidable (lib.SHA256 b = res))
  | .Head _ _ _ => isTrue trivial
  | .Signatures _ => isTrue trivial
  | .Get _ => isTrue trivial
  | .WriteLayer _ _ _ _ => isTrue trivial
  | .RawManifest _ => isTrue trivial
  | .Fprintf _ => isTrue trivial
  | .Put _ _ _ _ => isTrue trivial
  | .Referrers _ _ _ => isTrue trivial

/-- The trace of a run in which every step up to the manifest put succeeds, and
the put returns `e`. -/
def completeTrace (d : Digest) (ref0 : Reference) (desc : Descriptor) (s : List Signature)
    (raw : Bytes) (m : Manifest) (b : Bytes) (h : Hash) (n : Int) (ref : Reference)
    (e : Option GoError) : List Event :=
  [Event.ParseReference d.String (.ok ref0), Event.Head ref0 [] (.ok desc),
    Event.Signatures none, Event.Get (.ok s)]
  ++ s.map (fun v => Event.WriteLayer d.Repository v [] none)
  ++ [Event.RawManifest (.ok raw), Event.Unmarshal raw (.ok m),
    Event.Marshal (mutateManifest m desc) (.ok b), Event.SHA256 b (.ok (h, n)),
    Event.ParseReference (Sprintf "%s/%s@%s" [d.RegistryStr, d.RepositoryStr, h.String])
      (.ok ref),
    Event.Fprintf (Sprintf
      "Uploading signature for [%s] to [%s] with config.mediaType [%s] layers[0].mediaType [%s].\n"
      [d.String, ref.String, ArtifactType "sig", SimpleSigningMediaType]),
    Event.Put ref ⟨b, (mutateManifest m desc).MediaType⟩ [] e]

/-- The state of the outside world after the blobs of the list have been written
to `repo` one after the other, every write succeeding; `none` when one of the
writes fails. -/
def afterWrites {σ : Type} (reg : Remote σ) (repo : Repository) : List Signature → σ → Option σ
  | [], w => some w
  | v :: vs, w =>
    match reg.WriteLayer repo v [] w with
    | (none, w1) => afterWrites reg repo vs w1
    | (some _, _) => none

/-! ## A small registry, for concrete runs

The outside world is the number of writes the registry has accepted. -/

/-- The manifest the small JSON decoder returns for an input of `n` bytes: one
layer of size `n`, no subject. -/
def toyManifest (n : Nat) : Manifest :=
  ⟨2, "application/vnd.oci.image.manifest.v1+json",
    ⟨"application/vnd.oci.image.config.v1+json", 233, ⟨"sha256", "c0"⟩, [], [], [], none, ""⟩,
    [⟨SimpleSigningMediaType, n, ⟨"sha256", "1a"⟩, [], [], [], none, ""⟩], [], none⟩

/-- A library whose parser rejects the empty string, whose JSON decoder rejects
the empty input, and whose hash is a stand-in. -/
def toyLib : Lib where
  ParseReference := fun s =>
    if s = "" then .error "could not parse reference: " else .ok ⟨⟨"", ""⟩, "", s⟩
  Unmarshal := fun b =>
    if b = [] then .error "unexpected end of JSON input"
    else .ok (toyManifest b.length)
  Marshal := fun m =>
    .ok ([m.SchemaVersion.toNat, m.Layers.length] ++ m.Config.MediaType.toList.map Char.toNat
      ++ (match m.Subject with | none => [0] | some s => [1, s.Size.toNat]))
  SHA256 := fun b => .ok (⟨"sha256", if b.length % 2 = 0 then "e0" else "e1"⟩, b.length)

/-- The descriptor the small registry returns for a subject it holds. -/
def toyDesc : Descriptor :=
  ⟨"application/vnd.oci.image.manifest.v1+json", 528, ⟨"sha256", "aaa"⟩, [], [], [], none, ""⟩

/-- A registry that holds every subject but the one whose digest is `sha256:404`,
refuses a blob with an empty payload, and accepts every manifest. -/
def toyRemote : Remote Nat where
  Head := fun ref _ w =>
    if ref.String = "registry.example/repo@sha256:404" then (.error "NotFound", w)
    else (.ok toyDesc, w)
  WriteLayer := fun _ v _ w =>
    if v.Payload = [] then (some "blob write failed", w) else (none, w + 1)
  Put := fun _ _ _ w => (none, w + 1)
  Referrers := fun _ _ w => ((some ⟨2, "application/vnd.oci.image.index.v1+json", [], [], none⟩, none), w)

/-- A second registry, which holds every subject and refuses every manifest. -/
def toyRemoteB : Remote Nat where
  Head := fun _ _ w => (.ok toyDesc, w + 7)
  WriteLayer := fun _ _ _ w => (none, w + 1)
  Put := fun _ _ _ w => (some "denied", w)
  Referrers := fun _ _ w => ((none, some "unsupported"), w)

/-- The bytes the small library serializes the mutated `toyManifest` to. -/
def toyBytes : Bytes :=
  [2, 1] ++ "application/vnd.dev.cosign.artifact.sig.v1+json".toList.map Char.toNat ++ [1, 528]

/-- What the manifest put is handed in a run on `toyManifest`. -/
def toyTaggable : taggableManifest :=
  ⟨toyBytes, "application/vnd.oci.image.manifest.v1+json"⟩

/-- The signatures of a signed entity: the given layers and raw manifest bytes. -/
def toySigs (layers : List Signature) (raw : Bytes) : Signatures Nat where
  Get := fun w => (.ok layers, w)
  RawManifest := fun w => (.ok raw, w)

/-- A signed entity with the given layers and raw manifest bytes. -/
def toyEntity (layers : List Signature) (raw : Bytes) : SignedEntity Nat where
  Signatures := fun w => (.ok (toySigs layers raw), w)

/-- A subject held by the small registry. -/
def toyDigest : Digest :=
  ⟨⟨"registry.example", "repo"⟩, "sha256:aaa", "registry.example/repo@sha256:aaa"⟩

/-- A subject the small registry does not hold. -/
def toyMissing : Digest :=
  ⟨⟨"registry.example", "repo"⟩, "sha256:404", "registry.example/repo@sha256:404"⟩

/-- Three signature layers; the write of the second is refused by the small
registry. -/
def toyLayers : List Signature :=
  [⟨⟨"sha256", "01"⟩, [1]⟩, ⟨⟨"sha256", "02"⟩, []⟩, ⟨⟨"sha256", "03"⟩, [3]⟩]

/-! ## The library on concrete inputs

For runs on concrete inputs, the collaborators without side effects are given
by the algorithms of the libraries: SHA-256, the serialization of
`encoding/json` for the manifest type, and the parser of digest references. -/

/-- The round constants of SHA-256. -/
def sha256K : List Nat :=
  [1116352408, 1899447441, 3049323471, 3921009573, 961987163, 1508970993, 2453635748, 2870763221, 3624381080, 310598401, 607225278, 1426881987, 1925078388, 2162078206, 2614888103, 3248222580, 3835390401, 4022224774, 264347078, 604807628, 770255983, 1249150122, 1555081692, 1996064986, 2554220882, 2821834349, 2952996808, 3210313671, 3336571891, 3584528711, 113926993, 338241895, 666307205, 773529912, 1294757372, 1396182291, 1695183700, 1986661051, 2177026350, 2456956037, 2730485921, 2820302411, 3259730800, 3345764771, 3516065817, 3600352804, 4094571909, 275423344, 430227734, 506948616, 659060556, 883997877, 958139571, 1322822218, 1537002063, 1747873779, 1955562222, 2024104815, 2227730452, 2361852424, 2428436474, 2756734187, 3204031479, 3329325298]

/-- The initial hash value of SHA-256. -/
def sha256H0 : List Nat :=
  [1779033703, 3144134277, 1013904242, 2773480762, 1359893119, 2600822924, 528734635, 1541459225]

/-- Rotation to the right of a 32-bit word. -/
def rotr (n x : Nat) : Nat := ((x >>> n) ||| (x <<< (32 - n))) % 4294967296

/-- The padding of SHA-256: a one bit, zeros, and the length in bits on eight
bytes, up to a multiple of 64 bytes. -/
def sha256Pad (msg : Bytes) : Bytes :=
  msg.map (· % 256) ++ [128] ++ List.replicate ((119 - msg.length % 64) % 64) 0
    ++ (List.range 8).map (fun i => ((8 * msg.length) >>> (8 * (7 - i))) % 256)

/-- The big-endian 32-bit words of a block. -/
def wordsOf : Bytes → List Nat
  | a :: b :: c :: d :: rest => (a * 16777216 + b * 65536 + c * 256 + d) :: wordsOf rest
  | _ => []

/-- The message schedule of SHA-256, last word first: `k` more words. -/
def schedule : Nat → List Nat → List Nat
  | 0, rev => rev
  | k + 1, rev =>
    let w2 := rev.getD 1 0
    let w7 := rev.getD 6 0
    let w15 := rev.getD 14 0
    let w16 := rev.getD 15 0
    let s0 := (rotr 7 w15 ^^^ rotr 18 w15) ^^^ (w15 >>> 3)
    let s1 := (rotr 17 w2 ^^^ rotr 19 w2) ^^^ (w2 >>> 10)
    schedule k (((w16 + s0 + w7 + s1) % 4294967296) :: rev)

/-- One round of the compression function of SHA-256. -/
def sha256Round (st : List Nat) (kw : Nat × Nat) : List Nat :=
  match st with
  | [a, b, c, d, e, f, g, h] =>
    let S1 := (rotr 6 e ^^^ rotr 11 e) ^^^ rotr 25 e
    let ch := (e &&& f) ^^^ ((4294967295 - e) &&& g)
    let t1 := (h + S1 + ch + kw.1 + kw.2) % 4294967296
    let S0 := (rotr 2 a ^^^ rotr 13 a) ^^^ rotr 22 a
    let maj := ((a &&& b) ^^^ (a &&& c)) ^^^ (b &&& c)
    let t2 := (S0 + maj) % 4294967296
    [(t1 + t2) % 4294967296, a, b, c, (d + t1) % 4294967296, e, f, g]
  | _ => st

/-- The compression of one block of 64 bytes. -/
def sha256Block (st : List Nat) (block : Bytes) : List Nat :=
  let w := (schedule 48 (wordsOf block).reverse).reverse
  let st1 := (sha256K.zip w).foldl sha256Round st
  List.zipWith (fun x y => (x + y) % 4294967296) st st1

/-- The compression of `k` blocks in a row. -/
def sha256Blocks : Nat → List Nat → Bytes → List Nat
  | 0, st, _ => st
  | k + 1, st, bs => sha256Blocks k (sha256Block st (bs.take 64)) (bs.drop 64)

/-- A hexadecimal digit, in lower case. -/
def hexDigit (n : Nat) : Char := "0123456789abcdef".toList.getD n '0'

/-- The eight hexadecimal digits of a 32-bit word. -/
def hexWord (x : Nat) : List Char :=
  (List.range 8).map (fun i => hexDigit ((x >>> (4 * (7 - i))) % 16))

/-- The SHA-256 digest of a byte string, in hexadecimal. -/
def sha256Hex (msg : Bytes) : GoString :=
  String.mk ((sha256Blocks ((sha256Pad msg).length / 64) sha256H0 (sha256Pad msg)).flatMap hexWord)

/-- The bytes (UTF-8) of a text. -/
def bytesOf (s : GoString) : Bytes :=
  s.toList.flatMap (fun c => (String.utf8EncodeChar c).map UInt8.toNat)

/-- One character of a JSON string as `encoding/json` writes it: the quote and the
backslash are escaped, the line feed, carriage return and tab have their short
form, the other control characters and `<`, `>`, `&`, U+2028, U+2029 are
written `\u` and four hexadecimal digits. -/
def jsonChar (c : Char) : List Char :=
  if c = '"' then ['\\', '"']
  else if c = '\\' then ['\\', '\\']
  else if c = '\n' then ['\\', 'n']
  else if c = '\r' then ['\\', 'r']
  else if c = '\t' then ['\\', 't']
  else if c.toNat < 32 ∨ c = '<' ∨ c = '>' ∨ c = '&' ∨ c.toNat = 8232 ∨ c.toNat = 8233 then
    ['\\', 'u'] ++ (hexWord c.toNat).drop 4
  else [c]

/-- A JSON string as `encoding/json` writes it. -/
def jsonString (s : GoString) : GoString :=
  String.mk (['"'] ++ s.toList.flatMap jsonChar ++ ['"'])

/-- A `[]string` that is not empty, as a JSON array. -/
def jsonStrings (l : List GoString) : GoString :=
  "[" ++ ",".intercalate (l.map jsonString) ++ "]"

/-- The serialization of a `v1.Descriptor` by `encoding/json`, fields in the
order of the struct, the `omitempty` fields left out when empty; `none` for a
descriptor with data, annotations or a platform, which are not covered. -/
def jsonDescriptor (d : Descriptor) : Option GoString :=
  if d.Data = [] ∧ d.Annotations = [] ∧ d.Platform = none then
    some ("\x7b\"mediaType\":" ++ jsonString d.MediaType
      ++ ",\"size\":" ++ toString d.Size
      ++ ",\"digest\":" ++ jsonString d.Digest.String
      ++ (if d.URLs = [] then "" else ",\"urls\":" ++ jsonStrings d.URLs)
      ++ (if d.ArtifactType = "" then "" else ",\"artifactType\":" ++ jsonString d.ArtifactType)
      ++ "\x7d")
  else none

/-- The serializations of a list of descriptors, `none` when one is not covered. -/
def jsonDescriptors : List Descriptor → Option (List GoString)
  | [] => some []
  | d :: ds =>
    match jsonDescriptor d, jsonDescriptors ds with
    | some x, some xs => some (x :: xs)
    | _, _ => none

/-- The serialization of a `v1.Manifest` by `encoding/json` (the layers a slice
that is not `nil`); `none` for a manifest with annotations or with a descriptor
that is not covered. -/
def jsonManifest (m : Manifest) : Option GoString :=
  match jsonDescriptor m.Config, jsonDescriptors m.Layers,
    (match m.Subject with
      | none => some ""
      | some s => (jsonDescriptor s).map (fun x => ",\"subject\":" ++ x)) with
  | some config, some layers, some subject =>
    if m.Annotations = [] then
      some ("\x7b\"schemaVersion\":" ++ toString m.SchemaVersion
        ++ (if m.MediaType = "" then "" else ",\"mediaType\":" ++ jsonString m.MediaType)
        ++ ",\"config\":" ++ config
        ++ ",\"layers\":[" ++ ",".intercalate layers ++ "]"
        ++ subject ++ "\x7d")
    else none
  | _, _, _ => none

/-- The characters of a repository name. -/
def repositoryChar (c : Char) : Bool :=
  c.isLower || c.isDigit || c = '_' || c = '-' || c = '.' || c = '/'

/-- A digest of a reference: `sha256:` and 64 hexadecimal digits in lower case. -/
def isDigestStr (dg : List Char) : Bool :=
  dg.take 7 = "sha256:".toList && (dg.drop 7).length = 64
    && (dg.drop 7).all (fun c => c.isDigit || ('a' ≤ c && c ≤ 'f'))

/-- The parser of `name.ParseReference` on digest references
`<registry>/<repository>@sha256:<64 hexadecimal digits>` whose registry is a host
name with a dot and letters, digits and hyphens only; the reference holds the
repository, the digest as identifier and the text it was parsed from. Any other
text is refused (the library accepts tags, ports and default registries too). -/
def parseDigestReference (s : GoString) : Except GoError Reference :=
  let cs := s.toList
  let base := cs.takeWhile (· ≠ '@')
  let dg := (cs.dropWhile (· ≠ '@')).drop 1
  let registry := base.takeWhile (· ≠ '/')
  let repo := (base.dropWhile (· ≠ '/')).drop 1
  if base.length + 1 + dg.length = cs.length ∧ isDigestStr dg = true
      ∧ registry.length + 1 + repo.length = base.length
      ∧ registry.contains '.' = true
      ∧ registry.all (fun c => c.isLower || c.isDigit || c = '-' || c = '.') = true
      ∧ registry.head? ≠ some '.' ∧ registry.getLast? ≠ some '.'
      ∧ 2 ≤ repo.length ∧ repo.all repositoryChar = true then
    .ok ⟨⟨String.mk registry, String.mk repo⟩, String.mk dg, s⟩
  else .error ("could not parse reference: " ++ s)

/-- An image manifest without layers, as the signatures of an entity that has
none carry it. -/
def demoManifest : Manifest :=
  ⟨2, "application/vnd.oci.image.manifest.v1+json",
    ⟨"application/vnd.oci.image.config.v1+json", 233,
      ⟨"sha256", "b79606fb3afea5bd1609ed40b622142f1c98125abcfe89a76a661b0e8e343910"⟩,
      [], [], [], none, ""⟩,
    [], [], none⟩

/-- The JSON text of `demoManifest`. -/
def demoRawText : GoString :=
  "\x7b\"schemaVersion\":2,\"mediaType\":\"application/vnd.oci.image.ma"
    ++ "nifest.v1+json\",\"config\":\x7b\"mediaType\":\"application/vnd.oci.i"
    ++ "mage.config.v1+json\",\"size\":233,\"digest\":\"sha256:b79606fb3af"
    ++ "ea5bd1609ed40b622142f1c98125abcfe89a76a661b0e8e343910\"\x7d,\"lay"
    ++ "ers\":[]\x7d"

/-- The raw manifest bytes of the signatures: the bytes of `demoRawText`. -/
def demoRaw : Bytes := bytesOf demoRawText

/-- The library on concrete inputs: the parser of digest references, SHA-256, the
serialization of `encoding/json`, and a decoder that gives `demoManifest` for
the text `demoRawText` and refuses the empty input, as `encoding/json` does; the
other inputs are outside of what the decoder and the serialization cover. -/
def stdLib : Lib where
  ParseReference := parseDigestReference
  Unmarshal := fun b =>
    if b = [] then .error "unexpected end of JSON input"
    else if b = demoRaw then .ok demoManifest
    else .error "json: input not covered"
  Marshal := fun m =>
    match jsonManifest m with
    | some s => .ok (bytesOf s)
    | none => .error "json: value not covered"
  SHA256 := fun b => .ok (⟨"sha256", sha256Hex b⟩, b.length)

/-- A subject: a digest reference in the repository `registry.example/repo`. -/
def demoDigest : Digest :=
  ⟨⟨"registry.example", "repo"⟩,
    "sha256:a9491f4c1bf7b0cffbadcba2db8f028e4b3f2867cb59e1f3a0bc1968f3c51242",
    "registry.example/repo@sha256:a9491f4c1bf7b0cffbadcba2db8f028e4b3f2867cb59e1f3a0bc1968f3c51242"⟩

/-- The subject as a parsed reference. -/
def demoRef : Reference :=
  ⟨⟨"registry.example", "repo"⟩,
    "sha256:a9491f4c1bf7b0cffbadcba2db8f028e4b3f2867cb59e1f3a0bc1968f3c51242",
    "registry.example/repo@sha256:a9491f4c1bf7b0cffbadcba2db8f028e4b3f2867cb59e1f3a0bc1968f3c51242"⟩

/-- The descriptor of the subject. -/
def demoDesc : Descriptor :=
  ⟨"application/vnd.oci.image.manifest.v1+json", 528,
    ⟨"sha256", "a9491f4c1bf7b0cffbadcba2db8f028e4b3f2867cb59e1f3a0bc1968f3c51242"⟩,
    [], [], [], none, ""⟩

/-- A registry that holds the subject `demoDigest` only and accepts every blob and
every manifest; its state is the number of writes it has accepted. -/
def demoRemote : Remote Nat where
  Head := fun ref _ w =>
    if ref.Identifier = "sha256:a9491f4c1bf7b0cffbadcba2db8f028e4b3f2867cb59e1f3a0bc1968f3c51242"
    then (.ok demoDesc, w)
    else (.error "NotFound", w)
  WriteLayer := fun _ _ _ w => (none, w + 1)
  Put := fun _ _ _ w => (none, w + 1)
  Referrers := fun _ _ w => ((none, some "unsupported"), w)

/-- The signatures of an entity without signatures: no layer, and `demoRaw` as raw
manifest. -/
def demoSigs : Signatures Nat where
  Get := fun w => (.ok [], w)
  RawManifest := fun w => (.ok demoRaw, w)

/-- A signed entity without signatures. -/
def demoEntity : SignedEntity Nat where
  Signatures := fun w => (.ok demoSigs, w)

/-- The JSON text of `demoManifest` after the mutation step, with `demoDesc` as
subject. -/
def demoPushedText : GoString :=
  "\x7b\"schemaVersion\":2,\"mediaType\":\"application/vnd.oci.image.ma"
    ++ "nifest.v1+json\",\"config\":\x7b\"mediaType\":\"application/vnd.dev.c"
    ++ "osign.artifact.sig.v1+json\",\"size\":233,\"digest\":\"sha256:b796"
    ++ "06fb3afea5bd1609ed40b622142f1c98125abcfe89a76a661b0e8e343910"
    ++ "\"\x7d,\"layers\":[],\"subject\":\x7b\"mediaType\":\"application/vnd.oci.i"
    ++ "mage.manifest.v1+json\",\"size\":528,\"digest\":\"sha256:a9491f4c1"
    ++ "bf7b0cffbadcba2db8f028e4b3f2867cb59e1f3a0bc1968f3c51242\"\x7d\x7d"

/-- The bytes of `demoPushedText`. -/
def demoPushed : Bytes := bytesOf demoPushedText

/-- The SHA-256 hash of `demoPushed`. -/
def demoHash : Hash :=
  ⟨"sha256", "4ed2ce19ab6911f5192fcefa173d9238f0e40f444a2d66686704ca3d8069b067"⟩

/-- The target reference: the repository of the subject and the hash of
`demoPushed`. -/
def demoTarget : Reference :=
  ⟨⟨"registry.example", "repo"⟩,
    "sha256:4ed2ce19ab6911f5192fcefa173d9238f0e40f444a2d66686704ca3d8069b067",
    "registry.example/repo@sha256:4ed2ce19ab6911f5192fcefa173d9238f0e40f444a2d66686704ca3d8069b067"⟩

/-- A subject the registry `demoRemote` does not hold. -/
def demoMissing : Digest :=
  ⟨⟨"registry.example", "repo"⟩,
    "sha256:ffa63583dfa6706b87d284b86b0d693a161e4840aad2c5cf6b5d27c3b9621f7d",
    "registry.example/repo@sha256:ffa63583dfa6706b87d284b86b0d693a161e4840aad2c5cf6b5d27c3b9621f7d"⟩

/-- The subject `demoMissing` as a parsed reference. -/
def demoMissingRef : Reference :=
  ⟨⟨"registry.example", "repo"⟩,
    "sha256:ffa63583dfa6706b87d284b86b0d693a161e4840aad2c5cf6b5d27c3b9621f7d",
    "registry.example/repo@sha256:ffa63583dfa6706b87d284b86b0d693a161e4840aad2c5cf6b5d27c3b9621f7d"⟩

/-- Every step of `WriteSignaturesExperimentalOCI` succeeds, from the state `w` on:
the parse of the subject, head, the signature retrieval, the enumeration of the
layers, every blob write, the retrieval of the raw manifest, its decoding, the
serialization of the mutated manifest, the digest, the parse of the target
reference and the manifest put. -/
def EveryStepSucceeds {σ : Type} (lib : Lib) (reg : Remote σ) (d : Digest)
    (se : SignedEntity σ) (w : σ) : Prop :=
  ∃ (ref : Reference) (desc : Descriptor) (w1 : σ) (sigs : Signatures σ) (w2 : σ)
    (s : List Signature) (w3 w4 : σ) (raw : Bytes) (w5 : σ) (m : Manifest) (b : Bytes)
    (h : Hash) (n : Int) (tref : Reference) (w6 : σ),
    lib.ParseReference d.String = .ok ref ∧
    reg.Head ref [] w = (.ok desc, w1) ∧
    se.Signatures w1 = (.ok sigs, w2) ∧
    sigs.Get w2 = (.ok s, w3) ∧
    afterWrites reg d.Repository s w3 = some w4 ∧
    sigs.RawManifest w4 = (.ok raw, w5) ∧
    lib.Unmarshal raw = .ok m ∧
    lib.Marshal (mutateManifest m desc) = .ok b ∧
    lib.SHA256 b = .ok (h, n) ∧
    lib.ParseReference (d.RegistryStr ++ "/" ++ d.RepositoryStr ++ "@" ++ h.String) = .ok tref ∧
    reg.Put tref ⟨b, (mutateManifest m desc).MediaType⟩ [] w5 = (none, w6)

/-! ## Lemmas -/

theorem writeLayers_events {σ : Type} (reg : Remote σ) (repo : Repository) (s : List Signature)
    (w : σ) : ∀ ev ∈ (writeLayers reg repo s w).trace,
      ∃ v e, v ∈ s ∧ ev = Event.WriteLayer repo v [] e := by
  induction s generalizing w with
  | nil => simp [writeLayers]
  | cons v vs ih =>
    intro ev hev
    unfold writeLayers at hev
    split at hev
    · simp at hev
      exact ⟨v, _, by simp, hev⟩
    · rename_i w1 heq
      simp at hev
      rcases hev with h | h
      · exact ⟨v, _, by simp, h⟩
      · obtain ⟨v', e, hv, he⟩ := ih w1 ev h
        exact ⟨v', e, by simp [hv], he⟩

theorem allOk_append {a b : List Event} (ha : AllOk a) (hb : AllOk b) : AllOk (a ++ b) := by
  intro ev hev
  rcases List.mem_append.1 hev with h | h
  · exact ha ev h
  · exact hb ev h

theorem allOk_cons {ev : Event} {tr : List Event} (h : ev.err = none) (ht : AllOk tr) :
    AllOk (ev :: tr) := by
  intro x hx
  rcases List.mem_cons.1 hx with h1 | h1
  · rw [h1]; exact h
  · exact ht x h1

theorem stopsWith_append {a b : List Event} {e : Option GoError} (ha : AllOk a)
    (hb : StopsWith b e) : StopsWith (a ++ b) e := by
  obtain ⟨pre, last, h1, h2, h3⟩ := hb
  exact ⟨a ++ pre, last, by simp [h1], allOk_append ha h2, h3⟩

theorem stopsWith_cons {ev : Event} {tr : List Event} {e : Option GoError} (h : ev.err = none)
    (ht : StopsWith tr e) : StopsWith (ev :: tr) e := by
  obtain ⟨pre, last, h1, h2, h3⟩ := ht
  exact ⟨ev :: pre, last, by simp [h1], allOk_cons h h2, h3⟩

theorem stopsWith_single (ev : Event) : StopsWith [ev] ev.err :=
  ⟨[], ev, rfl, (by intro x hx; cases hx), rfl⟩

theorem writeLayers_allOk {σ : Type} (reg : Remote σ) (repo : Repository) (s : List Signature)
    (w : σ) (h : (writeLayers reg repo s w).err = none) :
    (writeLayers reg repo s w).trace = s.map (fun v => Event.WriteLayer repo v [] none) := by
  induction s generalizing w with
  | nil => simp [writeLayers]
  | cons v vs ih =>
    unfold writeLayers at h ⊢
    split at h
    · simp at h
    · rename_i w1 heq
      simp at h ⊢
      exact ih w1 h

theorem allOk_map_writeLayer (repo : Repository) (s : List Signature) :
    AllOk (s.map (fun v => Event.WriteLayer repo v [] none)) := by
  intro ev hev
  obtain ⟨v, _, rfl⟩ := List.mem_map.1 hev
  rfl

theorem writeLayers_stops {σ : Type} (reg : Remote σ) (repo : Repository) (s : List Signature)
    (w : σ) (e : GoError) (h : (writeLayers reg repo s w).err = some e) :
    StopsWith (writeLayers reg repo s w).trace (some e) := by
  induction s generalizing w with
  | nil => simp [writeLayers] at h
  | cons v vs ih =>
    unfold writeLayers at h ⊢
    split at h
    · rename_i err w1 heq
      simp at h ⊢
      rw [← h]
      exact stopsWith_single (Event.WriteLayer repo v [] (some err))
    · rename_i w1 heq
      simp at h ⊢
      exact stopsWith_cons (by rfl) (ih w1 h)

theorem run_stops {σ : Type} (lib : Lib) (reg : Remote σ) (d : Digest) (se : SignedEntity σ)
    (opts : List ROption) (w : σ) :
    StopsWith (WriteSignaturesExperimentalOCI lib reg d se opts w).trace
      (WriteSignaturesExperimentalOCI lib reg d se opts w).err := by
  unfold WriteSignaturesExperimentalOCI
  simp only []
  split
  · exact stopsWith_single _
  split
  · exact stopsWith_cons (by rfl) (stopsWith_single _)
  split
  · exact stopsWith_cons (by rfl) (stopsWith_cons (by rfl) (stopsWith_single _))
  split
  · exact stopsWith_cons (by rfl) (stopsWith_cons (by rfl) (stopsWith_cons (by rfl) (stopsWith_single _)))
  rename_i s w3 _
  split
  · rename_i err tw w4 heq
    have hl := writeLayers_stops reg d.Repository s w3 err (by rw [heq])
    rw [heq] at hl
    exact stopsWith_append (by simp [AllOk, Event.err, errOf]) hl
  rename_i tw w4 heq
  have hl := writeLayers_allOk reg d.Repository s w3 (by rw [heq])
  rw [heq] at hl
  simp only at hl
  have hok : AllOk tw := hl ▸ allOk_map_writeLayer _ _
  repeat' split
  all_goals
    simp only [List.append_assoc, List.cons_append, List.nil_append]
    iterate 4 refine stopsWith_cons (by rfl) ?_
    apply stopsWith_append hok
    repeat (first | exact stopsWith_single _ | refine stopsWith_cons (by rfl) ?_)

theorem put_not_mem_writeLayers {σ : Type} (reg : Remote σ) (repo : Repository)
    (s : List Signature) (w : σ) (ref : Reference) (t : taggableManifest) (o : List ROption)
    (e : Option GoError) : Event.Put ref t o e ∉ (writeLayers reg repo s w).trace := by
  intro h
  obtain ⟨v, e', _, h'⟩ := writeLayers_events reg repo s w _ h
  cases h'

/-- A run either fails without a manifest put, or goes through every step up to
the put, whose result it returns. -/
theorem run_cases {σ : Type} (lib : Lib) (reg : Remote σ) (d : Digest) (se : SignedEntity σ)
    (opts : List ROption) (w : σ) :
    ((∃ e, (WriteSignaturesExperimentalOCI lib reg d se opts w).err = some e) ∧
      ∀ (ref : Reference) (t : taggableManifest) (o : List ROption) (e : Option GoError),
        Event.Put ref t o e ∉ (WriteSignaturesExperimentalOCI lib reg d se opts w).trace) ∨
    (∃ ref0 desc s raw m b h n ref,
        (WriteSignaturesExperimentalOCI lib reg d se opts w).trace
          = completeTrace d ref0 desc s raw m b h n ref
              (WriteSignaturesExperimentalOCI lib reg d se opts w).err ∧
        lib.ParseReference d.String = .ok ref0 ∧
        lib.Unmarshal raw = .ok m ∧
        lib.Marshal (mutateManifest m desc) = .ok b ∧
        lib.SHA256 b = .ok (h, n) ∧
        lib.ParseReference (Sprintf "%s/%s@%s" [d.RegistryStr, d.RepositoryStr, h.String])
          = .ok ref) := by
  unfold WriteSignaturesExperimentalOCI
  simp only []
  split
  · left; exact ⟨⟨_, rfl⟩, by intro ref t o e h; simp at h⟩
  split
  · left; exact ⟨⟨_, rfl⟩, by intro ref t o e h; simp at h⟩
  split
  · left; exact ⟨⟨_, rfl⟩, by intro ref t o e h; simp at h⟩
  split
  · left; exact ⟨⟨_, rfl⟩, by intro ref t o e h; simp at h⟩
  rename_i s w3 _
  have hn : ∀ ref t o e, Event.Put ref t o e ∉ (writeLayers reg d.Repository s w3).trace :=
    put_not_mem_writeLayers reg d.Repository s w3
  split
  · rename_i err tw w4 heq
    rw [heq] at hn
    left; exact ⟨⟨_, rfl⟩, by intro ref t o e h; simp at h; exact hn _ _ _ _ h⟩
  rename_i tw w4 heq
  have hl := writeLayers_allOk reg d.Repository s w3 (by rw [heq])
  rw [heq] at hl hn
  simp only at hl hn
  split
  · left; exact ⟨⟨_, rfl⟩, by intro ref t o e h; simp [hn] at h⟩
  split
  · left; exact ⟨⟨_, rfl⟩, by intro ref t o e h; simp [hn] at h⟩
  split
  · left; exact ⟨⟨_, rfl⟩, by intro ref t o e h; simp [hn] at h⟩
  split
  · left; exact ⟨⟨_, rfl⟩, by intro ref t o e h; simp [hn] at h⟩
  split
  · left; exact ⟨⟨_, rfl⟩, by intro ref t o e h; simp [hn] at h⟩
  right
  refine ⟨_, _, s, _, _, _, _, _, _, ?_, by assumption, by assumption, by assumption,
    by assumption, by assumption⟩
  simp [completeTrace, hl]

theorem put_mem_completeTrace {d : Digest} {ref0 : Reference} {desc : Descriptor}
    {s : List Signature} {raw : Bytes} {m : Manifest} {b : Bytes} {h : Hash} {n : Int}
    {ref : Reference} {e : Option GoError} {ref' : Reference} {t : taggableManifest}
    {o : List ROption} {e' : Option GoError}
    (hmem : Event.Put ref' t o e' ∈ completeTrace d ref0 desc s raw m b h n ref e) :
    ref' = ref ∧ t = ⟨b, (mutateManifest m desc).MediaType⟩ ∧ o = [] ∧ e' = e := by
  simpa [completeTrace] using hmem

theorem head_mem_completeTrace {d : Digest} {ref0 : Reference} {desc : Descriptor}
    {s : List Signature} {raw : Bytes} {m : Manifest} {b : Bytes} {h : Hash} {n : Int}
    {ref : Reference} {e : Option GoError} {ref' : Reference} {o : List ROption}
    {res : Except GoError Descriptor}
    (hmem : Event.Head ref' o res ∈ completeTrace d ref0 desc s raw m b h n ref e) :
    ref' = ref0 ∧ o = [] ∧ res = .ok desc := by
  simpa [completeTrace] using hmem

theorem rawManifest_mem_completeTrace {d : Digest} {ref0 : Reference} {desc : Descriptor}
    {s : List Signature} {raw : Bytes} {m : Manifest} {b : Bytes} {h : Hash} {n : Int}
    {ref : Reference} {e : Option GoError} {res : Except GoError Bytes}
    (hmem : Event.RawManifest res ∈ completeTrace d ref0 desc s raw m b h n ref e) :
    res = .ok raw := by
  simpa [completeTrace] using hmem

theorem Sprintf_target (a b c : GoString) :
    Sprintf "%s/%s@%s" [a, b, c] = a ++ "/" ++ b ++ "@" ++ c := by
  apply String.ext
  simp [Sprintf, doPrintf, String.toList]

theorem forall_mem_append_of {P : Event → Prop} {a b : List Event}
    (ha : ∀ ev ∈ a, P ev) (hb : ∀ ev ∈ b, P ev) : ∀ ev ∈ a ++ b, P ev := by
  intro ev hev
  rcases List.mem_append.1 hev with h | h
  · exact ha ev h
  · exact hb ev h

theorem opts_nil_of_mem {σ : Type} (lib : Lib) (reg : Remote σ) (d : Digest)
    (se : SignedEntity σ) (opts : List ROption) (w : σ) :
    ∀ ev ∈ (WriteSignaturesExperimentalOCI lib reg d se opts w).trace,
      ev.opts = none ∨ ev.opts = some [] := by
  unfold WriteSignaturesExperimentalOCI
  simp only []
  split
  · simp [Event.opts]
  split
  · simp [Event.opts]
  split
  · simp [Event.opts]
  split
  · simp [Event.opts]
  rename_i s w3 _
  have hw : ∀ ev ∈ (writeLayers reg d.Repository s w3).trace,
      ev.opts = none ∨ ev.opts = some [] := by
    intro ev hev
    obtain ⟨v, e, _, h⟩ := writeLayers_events reg d.Repository s w3 ev hev
    right; rw [h]; rfl
  split
  · rename_i err tw w4 heq
    rw [heq] at hw
    exact forall_mem_append_of (by simp [Event.opts]) hw
  rename_i tw w4 heq
  rw [heq] at hw
  simp only at hw
  repeat' split
  all_goals
    repeat' apply forall_mem_append_of
    all_goals first | exact hw | simp [Event.opts]

theorem trace_agrees {σ : Type} (lib : Lib) (reg : Remote σ) (d : Digest)
    (se : SignedEntity σ) (opts : List ROption) (w : σ) :
    ∀ ev ∈ (WriteSignaturesExperimentalOCI lib reg d se opts w).trace, ev.agrees lib := by
  unfold WriteSignaturesExperimentalOCI
  simp only []
  split
  · simp [Event.agrees, *]
  split
  · simp [Event.agrees, *]
  split
  · simp [Event.agrees, *]
  split
  · simp [Event.agrees, *]
  rename_i s w3 _
  have hw : ∀ ev ∈ (writeLayers reg d.Repository s w3).trace, ev.agrees lib := by
    intro ev hev
    obtain ⟨v, e, _, h⟩ := writeLayers_events reg d.Repository s w3 ev hev
    rw [h]; trivial
  split
  · rename_i err tw w4 heq
    rw [heq] at hw
    exact forall_mem_append_of (by simp [Event.agrees, *]) hw
  rename_i tw w4 heq
  rw [heq] at hw
  simp only at hw
  repeat' split
  all_goals
    repeat' apply forall_mem_append_of
    all_goals first | exact hw | simp [Event.agrees, *]

theorem afterWrites_of_writeLayers {σ : Type} (reg : Remote σ) (repo : Repository)
    (s : List Signature) (w : σ) (h : (writeLayers reg repo s w).err = none) :
    afterWrites reg repo s w = some (writeLayers reg repo s w).world := by
  induction s generalizing w with
  | nil => simp [writeLayers, afterWrites]
  | cons v vs ih =>
    unfold writeLayers at h ⊢
    unfold afterWrites
    split at h
    · simp at h
    · rename_i w1 heq
      rw [heq]
      simp at h ⊢
      exact ih w1 h

theorem writeLayers_first_failure {σ : Type} (reg : Remote σ) (repo : Repository)
    (pre : List Signature) (l : Signature) (post : List Signature) (w w4 w5 : σ) (e : GoError)
    (hpre : afterWrites reg repo pre w = some w4)
    (hl : reg.WriteLayer repo l [] w4 = (some e, w5)) :
    writeLayers reg repo (pre ++ l :: post) w =
      ⟨some e, pre.map (fun v => Event.WriteLayer repo v [] none)
        ++ [Event.WriteLayer repo l [] (some e)], w5⟩ := by
  induction pre generalizing w with
  | nil =>
    simp [afterWrites] at hpre
    subst hpre
    simp [writeLayers, hl]
  | cons v vs ih =>
    unfold afterWrites at hpre
    split at hpre
    · rename_i w1 heq
      simp [writeLayers, heq, ih w1 hpre]
    · simp at hpre

theorem writeLayers_all_ok {σ : Type} (reg : Remote σ) (repo : Repository)
    (s : List Signature) (w w4 : σ) (hs : afterWrites reg repo s w = some w4) :
    writeLayers reg repo s w = ⟨none, s.map (fun v => Event.WriteLayer repo v [] none), w4⟩ := by
  induction s generalizing w with
  | nil =>
    simp [afterWrites] at hs
    subst hs
    simp [writeLayers]
  | cons v vs ih =>
    unfold afterWrites at hs
    split at hs
    · rename_i w1 heq
      simp [writeLayers, heq, ih w1 hs]
    · simp at hs

theorem filter_isWriteLayer_map (repo : Repository) (s : List Signature) :
    (s.map (fun v => Event.WriteLayer repo v [] none)).filter Event.isWriteLayer
      = s.map (fun v => Event.WriteLayer repo v [] none) := by
  induction s with
  | nil => rfl
  | cons v vs ih => simp [List.filter, Event.isWriteLayer, ih]

/-! ## The claims -/

/-- C1: for every string `k`, `ArtifactType k` is the text
`application/vnd.dev.cosign.artifact.`, then `k` as it is, then `.v1+json`: the
operand of `%s` is copied without validation, escaping or truncation, also when
it is empty or holds `%`, `.` or `/`. -/
theorem ArtifactType_eq (k : GoString) :
    ArtifactType k = "application/vnd.dev.cosign.artifact." ++ k ++ ".v1+json" := by
  apply String.ext
  simp [ArtifactType, Sprintf, doPrintf, String.toList]

/-- C2: the manifest left by the two assignments of the mutation step has
`config.mediaType = ArtifactType "sig"`, which is
`application/vnd.dev.cosign.artifact.sig.v1+json`, has the subject descriptor as
`subject`, and agrees with the parsed manifest on every other field. -/
theorem mutateManifest_frame (M : Manifest) (D : Descriptor) :
    (mutateManifest M D).Config.MediaType = ArtifactType "sig" ∧
    ArtifactType "sig" = "application/vnd.dev.cosign.artifact.sig.v1+json" ∧
    (mutateManifest M D).Subject = some D ∧
    (mutateManifest M D).SchemaVersion = M.SchemaVersion ∧
    (mutateManifest M D).MediaType = M.MediaType ∧
    (mutateManifest M D).Config.Size = M.Config.Size ∧
    (mutateManifest M D).Config.Digest = M.Config.Digest ∧
    (mutateManifest M D).Config.Data = M.Config.Data ∧
    (mutateManifest M D).Config.URLs = M.Config.URLs ∧
    (mutateManifest M D).Config.Annotations = M.Config.Annotations ∧
    (mutateManifest M D).Config.Platform = M.Config.Platform ∧
    (mutateManifest M D).Config.ArtifactType = M.Config.ArtifactType ∧
    (mutateManifest M D).Layers = M.Layers ∧
    (mutateManifest M D).Annotations = M.Annotations :=
  ⟨rfl, by decide, rfl, rfl, rfl, rfl, rfl, rfl, rfl, rfl, rfl, rfl, rfl, rfl⟩

/-- C9: `Referrers` calls the registry's referrers listing on `d` once, with the
options `base ++ [filter "artifactType" t]`, where `base` is the default
keychain alone when the variadic slice is `nil` (no option supplied) and the
supplied options, unchanged and in order, otherwise (an empty slice that is not
`nil` included); the filter is the last option; the pair the listing returns
is returned as it is. -/
theorem Referrers_options {σ : Type} (reg : Remote σ) (d : Digest) (t : GoString)
    (rOpts : Slice ROption) (w : σ) :
    Referrers reg d t rOpts w =
      ((reg.Referrers d
          ((match rOpts with
            | none => [ROption.WithAuthFromKeychain Keychain.DefaultKeychain]
            | some l => l) ++ [ROption.WithFilter "artifactType" t]) w).1,
        [Event.Referrers d
          ((match rOpts with
            | none => [ROption.WithAuthFromKeychain Keychain.DefaultKeychain]
            | some l => l) ++ [ROption.WithFilter "artifactType" t])
          (reg.Referrers d
            ((match rOpts with
              | none => [ROption.WithAuthFromKeychain Keychain.DefaultKeychain]
              | some l => l) ++ [ROption.WithFilter "artifactType" t]) w).1],
        (reg.Referrers d
          ((match rOpts with
            | none => [ROption.WithAuthFromKeychain Keychain.DefaultKeychain]
            | some l => l) ++ [ROption.WithFilter "artifactType" t]) w).2) ∧
    referrersOptions t none =
      [ROption.WithAuthFromKeychain Keychain.DefaultKeychain,
        ROption.WithFilter "artifactType" t] ∧
    (∀ l : List ROption, referrersOptions t (some l) = l ++ [ROption.WithFilter "artifactType" t]) ∧
    (referrersOptions t rOpts).getLast? = some (ROption.WithFilter "artifactType" t) := by
  refine ⟨?_, rfl, fun _ => rfl, ?_⟩
  · cases rOpts <;> rfl
  · cases rOpts <;> simp [referrersOptions]

/-- C10: the options passed to `WriteSignaturesExperimentalOCI` have no effect:
two runs that differ only in them return the same error, make the same calls
and leave the same state, and every registry call of a run (head, blob write,
manifest put) is made with the empty option list. -/
theorem options_ignored {σ : Type} (lib : Lib) (reg : Remote σ) (d : Digest)
    (se : SignedEntity σ) (opts1 opts2 : List ROption) (w : σ) :
    WriteSignaturesExperimentalOCI lib reg d se opts1 w
      = WriteSignaturesExperimentalOCI lib reg d se opts2 w ∧
    ∀ ev ∈ (WriteSignaturesExperimentalOCI lib reg d se opts1 w).trace,
      ev.isRegistryCall = true → ev.opts = some [] := by
  refine ⟨rfl, ?_⟩
  intro ev hev hreg
  rcases opts_nil_of_mem lib reg d se opts1 w ev hev with h | h
  · cases ev <;> simp [Event.isRegistryCall, Event.opts] at hreg h
  · exact h

/-- C3: in a run that issues the manifest put, the reference of the put is what
`name.ParseReference` returns for the text
`<registry of the subject>/<repository of the subject>@<digest>`, where the
digest is the `v1.SHA256` hash of the very bytes the put is handed (what
`RawManifest` of the `taggableManifest` returns), and these bytes are the
serialization of the mutated manifest, not the raw bytes of the signature
manifest. -/
theorem target_digest_of_pushed_bytes {σ : Type} (lib : Lib) (reg : Remote σ) (d : Digest)
    (se : SignedEntity σ) (opts : List ROption) (w : σ)
    (ref : Reference) (t : taggableManifest) (o : List ROption) (e : Option GoError)
    (hput : Event.Put ref t o e ∈ (WriteSignaturesExperimentalOCI lib reg d se opts w).trace) :
    ∃ b ref0 desc raw m h n,
      t.RawManifest = .ok b ∧
      Event.Head ref0 [] (.ok desc) ∈ (WriteSignaturesExperimentalOCI lib reg d se opts w).trace ∧
      Event.RawManifest (.ok raw) ∈ (WriteSignaturesExperimentalOCI lib reg d se opts w).trace ∧
      lib.Unmarshal raw = .ok m ∧
      lib.Marshal (mutateManifest m desc) = .ok b ∧
      lib.SHA256 b = .ok (h, n) ∧
      lib.ParseReference (d.RegistryStr ++ "/" ++ d.RepositoryStr ++ "@" ++ h.String) = .ok ref := by
  rcases run_cases lib reg d se opts w with ⟨_, hno⟩ | ⟨ref0, desc, s, raw, m, b, h, n, ref', htr, _, hu, hm, hs, hp⟩
  · exact absurd hput (hno ref t o e)
  · rw [htr] at hput
    obtain ⟨h1, h2, _, _⟩ := put_mem_completeTrace hput
    subst h1
    refine ⟨b, ref0, desc, raw, m, h, n, ?_, ?_, ?_, hu, hm, hs, ?_⟩
    · rw [h2]; rfl
    · rw [htr]; simp [completeTrace]
    · rw [htr]; simp [completeTrace]
    · rw [← Sprintf_target]; exact hp

/-- C3, at a concrete run: the small registry, a subject it holds, no layers. -/
theorem target_digest_of_pushed_bytes_witness :
    Event.Put ⟨⟨"", ""⟩, "", "registry.example/repo@sha256:e1"⟩
        toyTaggable [] none ∈
      (WriteSignaturesExperimentalOCI toyLib toyRemote toyDigest (toyEntity [] [1, 2]) [] 0).trace ∧
    ∃ b ref0 desc raw m h n,
      taggableManifest.RawManifest
        toyTaggable = .ok b ∧
      Event.Head ref0 [] (.ok desc) ∈
        (WriteSignaturesExperimentalOCI toyLib toyRemote toyDigest (toyEntity [] [1, 2]) [] 0).trace ∧
      Event.RawManifest (.ok raw) ∈
        (WriteSignaturesExperimentalOCI toyLib toyRemote toyDigest (toyEntity [] [1, 2]) [] 0).trace ∧
      toyLib.Unmarshal raw = .ok m ∧
      toyLib.Marshal (mutateManifest m desc) = .ok b ∧
      toyLib.SHA256 b = .ok (h, n) ∧
      toyLib.ParseReference
        (toyDigest.RegistryStr ++ "/" ++ toyDigest.RepositoryStr ++ "@" ++ h.String)
        = .ok ⟨⟨"", ""⟩, "", "registry.example/repo@sha256:e1"⟩ :=
  ⟨by decide,
    target_digest_of_pushed_bytes toyLib toyRemote toyDigest (toyEntity [] [1, 2]) [] 0
      ⟨⟨"", ""⟩, "", "registry.example/repo@sha256:e1"⟩
      toyTaggable [] none (by decide)⟩

/-- C6: two runs on the same subject, in which head returned the same descriptor
and the signed entity the same raw manifest bytes, hand the same bytes (and
media type) to the manifest put and put them at the same target reference,
whatever the registry, its state, the layers and the options are. -/
theorem publish_deterministic {σ τ : Type} (lib : Lib) (d : Digest)
    (reg1 : Remote σ) (se1 : SignedEntity σ) (opts1 : List ROption) (w1 : σ)
    (reg2 : Remote τ) (se2 : SignedEntity τ) (opts2 : List ROption) (w2 : τ)
    (desc : Descriptor) (raw : Bytes)
    (hr1 hr2 : Reference) (ho1 ho2 : List ROption)
    (ref1 ref2 : Reference) (t1 t2 : taggableManifest) (o1 o2 : List ROption)
    (e1 e2 : Option GoError)
    (hhead1 : Event.Head hr1 ho1 (.ok desc) ∈
      (WriteSignaturesExperimentalOCI lib reg1 d se1 opts1 w1).trace)
    (hhead2 : Event.Head hr2 ho2 (.ok desc) ∈
      (WriteSignaturesExperimentalOCI lib reg2 d se2 opts2 w2).trace)
    (hraw1 : Event.RawManifest (.ok raw) ∈
      (WriteSignaturesExperimentalOCI lib reg1 d se1 opts1 w1).trace)
    (hraw2 : Event.RawManifest (.ok raw) ∈
      (WriteSignaturesExperimentalOCI lib reg2 d se2 opts2 w2).trace)
    (hput1 : Event.Put ref1 t1 o1 e1 ∈
      (WriteSignaturesExperimentalOCI lib reg1 d se1 opts1 w1).trace)
    (hput2 : Event.Put ref2 t2 o2 e2 ∈
      (WriteSignaturesExperimentalOCI lib reg2 d se2 opts2 w2).trace) :
    t1.raw = t2.raw ∧ t1.mediaType = t2.mediaType ∧ ref1 = ref2 := by
  rcases run_cases lib reg1 d se1 opts1 w1 with
    ⟨_, hno⟩ | ⟨r01, desc1, s1, raw1, m1, b1, h1, n1, tr1, htr1, _, hu1, hm1, hs1, hp1⟩
  · exact absurd hput1 (hno ref1 t1 o1 e1)
  rcases run_cases lib reg2 d se2 opts2 w2 with
    ⟨_, hno⟩ | ⟨r02, desc2, s2, raw2, m2, b2, h2, n2, tr2, htr2, _, hu2, hm2, hs2, hp2⟩
  · exact absurd hput2 (hno ref2 t2 o2 e2)
  rw [htr1] at hhead1 hraw1 hput1
  rw [htr2] at hhead2 hraw2 hput2
  obtain ⟨_, _, hd1⟩ := head_mem_completeTrace hhead1
  obtain ⟨_, _, hd2⟩ := head_mem_completeTrace hhead2
  have hw1 := rawManifest_mem_completeTrace hraw1
  have hw2 := rawManifest_mem_completeTrace hraw2
  obtain ⟨hq1, ht1, _, _⟩ := put_mem_completeTrace hput1
  obtain ⟨hq2, ht2, _, _⟩ := put_mem_completeTrace hput2
  injection hd1 with hd1
  injection hd2 with hd2
  injection hw1 with hw1
  injection hw2 with hw2
  subst hd1 hd2 hw1 hw2
  rw [hu1] at hu2
  injection hu2 with hu2
  subst hu2
  rw [hm1] at hm2
  injection hm2 with hm2
  subst hm2
  rw [hs1] at hs2
  injection hs2 with hs2
  injection hs2 with hs2 hn2
  subst hs2
  rw [hp1] at hp2
  injection hp2 with hp2
  subst hq1 hq2 ht1 ht2
  exact ⟨rfl, rfl, hp2⟩

/-- C6, at two concrete runs: one on the small registry with no layer, one on a
registry that refuses the manifest, with one layer and other options. -/
theorem publish_deterministic_witness :
    (Event.Head ⟨⟨"", ""⟩, "", "registry.example/repo@sha256:aaa"⟩ [] (.ok toyDesc) ∈
      (WriteSignaturesExperimentalOCI toyLib toyRemote toyDigest (toyEntity [] [1, 2]) [] 0).trace ∧
    Event.Head ⟨⟨"", ""⟩, "", "registry.example/repo@sha256:aaa"⟩ [] (.ok toyDesc) ∈
      (WriteSignaturesExperimentalOCI toyLib toyRemoteB toyDigest
        (toyEntity [⟨⟨"sha256", "01"⟩, [1]⟩] [1, 2]) [ROption.other 3] 5).trace ∧
    Event.RawManifest (.ok [1, 2]) ∈
      (WriteSignaturesExperimentalOCI toyLib toyRemote toyDigest (toyEntity [] [1, 2]) [] 0).trace ∧
    Event.RawManifest (.ok [1, 2]) ∈
      (WriteSignaturesExperimentalOCI toyLib toyRemoteB toyDigest
        (toyEntity [⟨⟨"sha256", "01"⟩, [1]⟩] [1, 2]) [ROption.other 3] 5).trace ∧
    Event.Put ⟨⟨"", ""⟩, "", "registry.example/repo@sha256:e1"⟩
        toyTaggable [] none ∈
      (WriteSignaturesExperimentalOCI toyLib toyRemote toyDigest (toyEntity [] [1, 2]) [] 0).trace ∧
    Event.Put ⟨⟨"", ""⟩, "", "registry.example/repo@sha256:e1"⟩
        toyTaggable [] (some "denied") ∈
      (WriteSignaturesExperimentalOCI toyLib toyRemoteB toyDigest
        (toyEntity [⟨⟨"sha256", "01"⟩, [1]⟩] [1, 2]) [ROption.other 3] 5).trace) ∧
    (toyTaggable.raw
      = toyTaggable.raw ∧
    toyTaggable.mediaType
      = toyTaggable.mediaType ∧
    (⟨⟨"", ""⟩, "", "registry.example/repo@sha256:e1"⟩ : Reference)
      = ⟨⟨"", ""⟩, "", "registry.example/repo@sha256:e1"⟩) :=
  ⟨by decide,
    publish_deterministic toyLib toyDigest
      toyRemote (toyEntity [] [1, 2]) [] 0
      toyRemoteB (toyEntity [⟨⟨"sha256", "01"⟩, [1]⟩] [1, 2]) [ROption.other 3] 5
      toyDesc [1, 2]
      ⟨⟨"", ""⟩, "", "registry.example/repo@sha256:aaa"⟩
      ⟨⟨"", ""⟩, "", "registry.example/repo@sha256:aaa"⟩ [] []
      ⟨⟨"", ""⟩, "", "registry.example/repo@sha256:e1"⟩
      ⟨⟨"", ""⟩, "", "registry.example/repo@sha256:e1"⟩
      toyTaggable
      toyTaggable
      [] [] none (some "denied")
      (by decide) (by decide) (by decide) (by decide) (by decide) (by decide)⟩

/-- C8: every error a step raises is returned as that same value, and the run
stops there. Step by step, on the results of the collaborators: when the steps
before a step succeed and the step returns the error `e`, the run returns `e`
itself, its trace is the calls up to that step, each made once, and the state
is the one that step left; when every step before the manifest put succeeds,
the run returns what the put returns. So the run returns `nil` exactly when
every step succeeds. On the trace: the error returned is the one of the last
call made, every call before the last one succeeded, the run returns `nil`
exactly when every call made succeeded, and then it made every step up to the
put; the result recorded for a parse, a decoding, a serialization or a digest
is what the library returns for it. -/
theorem errors_propagate {σ : Type} (lib : Lib) (reg : Remote σ) (d : Digest)
    (se : SignedEntity σ) (opts : List ROption) (w : σ) :
    ((∀ e, lib.ParseReference d.String = .error e →
        WriteSignaturesExperimentalOCI lib reg d se opts w =
          ⟨some e, [Event.ParseReference d.String (.error e)], w⟩) ∧
      (∀ ref, lib.ParseReference d.String = .ok ref →
      (∀ e w1, reg.Head ref [] w = (.error e, w1) →
        WriteSignaturesExperimentalOCI lib reg d se opts w =
          ⟨some e, [Event.ParseReference d.String (.ok ref), Event.Head ref [] (.error e)], w1⟩) ∧
      (∀ desc w1, reg.Head ref [] w = (.ok desc, w1) →
      (∀ e w2, se.Signatures w1 = (.error e, w2) →
        WriteSignaturesExperimentalOCI lib reg d se opts w =
          ⟨some e, [Event.ParseReference d.String (.ok ref), Event.Head ref [] (.ok desc),
            Event.Signatures (some e)], w2⟩) ∧
      (∀ sigs w2, se.Signatures w1 = (.ok sigs, w2) →
      (∀ e w3, sigs.Get w2 = (.error e, w3) →
        WriteSignaturesExperimentalOCI lib reg d se opts w =
          ⟨some e, [Event.ParseReference d.String (.ok ref), Event.Head ref [] (.ok desc),
            Event.Signatures none, Event.Get (.error e)], w3⟩) ∧
      (∀ s w3, sigs.Get w2 = (.ok s, w3) →
      (∀ pre l post e w4 w5, s = pre ++ l :: post →
        afterWrites reg d.Repository pre w3 = some w4 →
        reg.WriteLayer d.Repository l [] w4 = (some e, w5) →
        WriteSignaturesExperimentalOCI lib reg d se opts w =
          ⟨some e, [Event.ParseReference d.String (.ok ref), Event.Head ref [] (.ok desc),
              Event.Signatures none, Event.Get (.ok s)]
            ++ pre.map (fun v => Event.WriteLayer d.Repository v [] none)
            ++ [Event.WriteLayer d.Repository l [] (some e)], w5⟩) ∧
      (∀ w4, afterWrites reg d.Repository s w3 = some w4 →
      (∀ e w5, sigs.RawManifest w4 = (.error e, w5) →
        WriteSignaturesExperimentalOCI lib reg d se opts w =
          ⟨some e, [Event.ParseReference d.String (.ok ref), Event.Head ref [] (.ok desc),
              Event.Signatures none, Event.Get (.ok s)]
            ++ s.map (fun v => Event.WriteLayer d.Repository v [] none)
            ++ [Event.RawManifest (.error e)], w5⟩) ∧
      (∀ raw w5, sigs.RawManifest w4 = (.ok raw, w5) →
      (∀ e, lib.Unmarshal raw = .error e →
        WriteSignaturesExperimentalOCI lib reg d se opts w =
          ⟨some e, [Event.ParseReference d.String (.ok ref), Event.Head ref [] (.ok desc),
              Event.Signatures none, Event.Get (.ok s)]
            ++ s.map (fun v => Event.WriteLayer d.Repository v [] none)
            ++ [Event.RawManifest (.ok raw), Event.Unmarshal raw (.error e)], w5⟩) ∧
      (∀ m, lib.Unmarshal raw = .ok m →
      (∀ e, lib.Marshal (mutateManifest m desc) = .error e →
        WriteSignaturesExperimentalOCI lib reg d se opts w =
          ⟨some e, [Event.ParseReference d.String (.ok ref), Event.Head ref [] (.ok desc),
              Event.Signatures none, Event.Get (.ok s)]
            ++ s.map (fun v => Event.WriteLayer d.Repository v [] none)
            ++ [Event.RawManifest (.ok raw), Event.Unmarshal raw (.ok m),
              Event.Marshal (mutateManifest m desc) (.error e)], w5⟩) ∧
      (∀ b, lib.Marshal (mutateManifest m desc) = .ok b →
      (∀ e, lib.SHA256 b = .error e →
        WriteSignaturesExperimentalOCI lib reg d se opts w =
          ⟨some e, [Event.ParseReference d.String (.ok ref), Event.Head ref [] (.ok desc),
              Event.Signatures none, Event.Get (.ok s)]
            ++ s.map (fun v => Event.WriteLayer d.Repository v [] none)
            ++ [Event.RawManifest (.ok raw), Event.Unmarshal raw (.ok m),
              Event.Marshal (mutateManifest m desc) (.ok b), Event.SHA256 b (.error e)], w5⟩) ∧
      (∀ h n, lib.SHA256 b = .ok (h, n) →
      (∀ e, lib.ParseReference (d.RegistryStr ++ "/" ++ d.RepositoryStr ++ "@" ++ h.String)
          = .error e →
        WriteSignaturesExperimentalOCI lib reg d se opts w =
          ⟨some e, [Event.ParseReference d.String (.ok ref), Event.Head ref [] (.ok desc),
              Event.Signatures none, Event.Get (.ok s)]
            ++ s.map (fun v => Event.WriteLayer d.Repository v [] none)
            ++ [Event.RawManifest (.ok raw), Event.Unmarshal raw (.ok m),
              Event.Marshal (mutateManifest m desc) (.ok b), Event.SHA256 b (.ok (h, n)),
              Event.ParseReference
                (d.RegistryStr ++ "/" ++ d.RepositoryStr ++ "@" ++ h.String) (.error e)],
            w5⟩) ∧
      (∀ tref, lib.ParseReference (d.RegistryStr ++ "/" ++ d.RepositoryStr ++ "@" ++ h.String)
          = .ok tref →
        WriteSignaturesExperimentalOCI lib reg d se opts w =
          ⟨(reg.Put tref ⟨b, (mutateManifest m desc).MediaType⟩ [] w5).1,
            completeTrace d ref desc s raw m b h n tref
              (reg.Put tref ⟨b, (mutateManifest m desc).MediaType⟩ [] w5).1,
            (reg.Put tref ⟨b, (mutateManifest m desc).MediaType⟩ [] w5).2⟩))))))))))) ∧
    ((WriteSignaturesExperimentalOCI lib reg d se opts w).err = none ↔
      EveryStepSucceeds lib reg d se w) ∧
    (WriteSignaturesExperimentalOCI lib reg d se opts w).trace.getLast?.map Event.err
      = some (WriteSignaturesExperimentalOCI lib reg d se opts w).err ∧
    (∀ ev ∈ (WriteSignaturesExperimentalOCI lib reg d se opts w).trace.dropLast, ev.err = none) ∧
    ((WriteSignaturesExperimentalOCI lib reg d se opts w).err = none ↔
      ∀ ev ∈ (WriteSignaturesExperimentalOCI lib reg d se opts w).trace, ev.err = none) ∧
    ((WriteSignaturesExperimentalOCI lib reg d se opts w).err = none →
      ∃ ref0 desc s raw m b h n ref,
        (WriteSignaturesExperimentalOCI lib reg d se opts w).trace
          = completeTrace d ref0 desc s raw m b h n ref none) ∧
    (∀ ev ∈ (WriteSignaturesExperimentalOCI lib reg d se opts w).trace, ev.agrees lib) := by
  obtain ⟨pre, last, h1, h2, h3⟩ := run_stops lib reg d se opts w
  refine ⟨?_, ?_, ?_, ?_, ?_, ?_, trace_agrees lib reg d se opts w⟩
  · constructor
    · intro e hp
      simp [WriteSignaturesExperimentalOCI, hp]
    intro ref hp
    constructor
    · intro e w1 hh
      simp [WriteSignaturesExperimentalOCI, hp, hh]
    intro desc w1 hh
    constructor
    · intro e w2 hs
      simp [WriteSignaturesExperimentalOCI, hp, hh, hs]
    intro sigs w2 hs
    constructor
    · intro e w3 hg
      simp [WriteSignaturesExperimentalOCI, hp, hh, hs, hg]
    intro s w3 hg
    constructor
    · intro pre l post e w4 w5 hsplit hpre hl
      subst hsplit
      have hloop := writeLayers_first_failure reg d.Repository pre l post w3 w4 w5 e hpre hl
      simp [WriteSignaturesExperimentalOCI, hp, hh, hs, hg, hloop]
    intro w4 hall
    have hloop := writeLayers_all_ok reg d.Repository s w3 w4 hall
    constructor
    · intro e w5 hr
      simp [WriteSignaturesExperimentalOCI, hp, hh, hs, hg, hloop, hr]
    intro raw w5 hr
    constructor
    · intro e hu
      simp [WriteSignaturesExperimentalOCI, hp, hh, hs, hg, hloop, hr, hu]
    intro m hu
    constructor
    · intro e hm
      simp [WriteSignaturesExperimentalOCI, hp, hh, hs, hg, hloop, hr, hu, hm]
    intro b hm
    constructor
    · intro e hd
      simp [WriteSignaturesExperimentalOCI, hp, hh, hs, hg, hloop, hr, hu, hm, hd]
    intro h n hd
    constructor
    · intro e ht
      simp [WriteSignaturesExperimentalOCI, hp, hh, hs, hg, hloop, hr, hu, hm, hd, ht,
        Sprintf_target]
    intro tref ht
    simp [WriteSignaturesExperimentalOCI, hp, hh, hs, hg, hloop, hr, hu, hm, hd, ht,
      completeTrace, Sprintf_target]
  · constructor
    · unfold WriteSignaturesExperimentalOCI
      simp only []
      split
      · intro hn; simp at hn
      split
      · intro hn; simp at hn
      split
      · intro hn; simp at hn
      split
      · intro hn; simp at hn
      rename_i s w3 _
      split
      · intro hn; simp at hn
      rename_i tw w4 heq
      have haw := afterWrites_of_writeLayers reg d.Repository s w3 (by rw [heq])
      rw [heq] at haw
      simp only at haw
      split
      · intro hn; simp at hn
      split
      · intro hn; simp at hn
      split
      · intro hn; simp at hn
      split
      · intro hn; simp at hn
      split
      · intro hn; simp at hn
      intro hn
      simp only at hn
      refine ⟨_, _, _, _, _, s, w3, w4, _, _, _, _, _, _, _, _, by assumption, by assumption,
        by assumption, by assumption, haw, by assumption, by assumption, by assumption,
        by assumption, ?_, Prod.ext hn rfl⟩
      rw [← Sprintf_target]
      assumption
    · rintro ⟨ref, desc, w1, sigs, w2, s, w3, w4, raw, w5, m, b, h, n, tref, w6,
        hp, hh, hs, hg, hall, hr, hu, hm, hd, ht, hput⟩
      have hloop := writeLayers_all_ok reg d.Repository s w3 w4 hall
      simp [WriteSignaturesExperimentalOCI, hp, hh, hs, hg, hloop, hr, hu, hm, hd, ht, hput,
        Sprintf_target]
  · rw [h1]; simp [h3]
  · rw [h1]; simpa using h2
  · rw [h1, ← h3]
    constructor
    · intro hl ev hev
      rcases List.mem_append.1 hev with h | h
      · exact h2 ev h
      · rw [List.mem_singleton.1 h]; exact hl
    · intro hall
      exact hall last (by simp)
  · intro hnone
    rcases run_cases lib reg d se opts w with
      ⟨⟨e, he⟩, _⟩ | ⟨ref0, desc, s, raw, m, b, h, n, ref, htr, _⟩
    · rw [he] at hnone; cases hnone
    · rw [hnone] at htr
      exact ⟨ref0, desc, s, raw, m, b, h, n, ref, htr⟩

set_option maxRecDepth 1000000 in
/-- C8, at two concrete runs on the library's algorithms: a run in which every
step succeeds, and a run on a subject the registry does not hold. -/
theorem errors_propagate_witness :
    (stdLib.ParseReference demoDigest.String = .ok demoRef ∧
      demoRemote.Head demoRef [] 0 = (.ok demoDesc, 0) ∧
      demoEntity.Signatures 0 = (.ok demoSigs, 0) ∧
      demoSigs.Get 0 = (.ok [], 0) ∧
      afterWrites demoRemote demoDigest.Repository [] 0 = some 0 ∧
      demoSigs.RawManifest 0 = (.ok demoRaw, 0) ∧
      stdLib.Unmarshal demoRaw = .ok demoManifest ∧
      stdLib.Marshal (mutateManifest demoManifest demoDesc) = .ok demoPushed ∧
      stdLib.SHA256 demoPushed = .ok (demoHash, 418) ∧
      stdLib.ParseReference
        (demoDigest.RegistryStr ++ "/" ++ demoDigest.RepositoryStr ++ "@" ++ demoHash.String)
        = .ok demoTarget) ∧
    WriteSignaturesExperimentalOCI stdLib demoRemote demoDigest demoEntity [] 0 =
      ⟨none, completeTrace demoDigest demoRef demoDesc [] demoRaw demoManifest demoPushed
        demoHash 418 demoTarget none, 1⟩ ∧
    (stdLib.ParseReference demoMissing.String = .ok demoMissingRef ∧
      demoRemote.Head demoMissingRef [] 0 = (.error "NotFound", 0)) ∧
    WriteSignaturesExperimentalOCI stdLib demoRemote demoMissing demoEntity [] 0 =
      ⟨some "NotFound", [Event.ParseReference demoMissing.String (.ok demoMissingRef),
        Event.Head demoMissingRef [] (.error "NotFound")], 0⟩ :=
  have hp : stdLib.ParseReference demoDigest.String = .ok demoRef := by decide
  have hh : demoRemote.Head demoRef [] 0 = (.ok demoDesc, 0) := by decide
  have hs : demoEntity.Signatures 0 = (.ok demoSigs, 0) := rfl
  have hg : demoSigs.Get 0 = (.ok [], 0) := by decide
  have ha : afterWrites demoRemote demoDigest.Repository [] 0 = some 0 := by decide
  have hr : demoSigs.RawManifest 0 = (.ok demoRaw, 0) := by decide
  have hu : stdLib.Unmarshal demoRaw = .ok demoManifest := by decide
  have hm : stdLib.Marshal (mutateManifest demoManifest demoDesc) = .ok demoPushed := by decide
  have hd : stdLib.SHA256 demoPushed = .ok (demoHash, 418) := by decide
  have ht : stdLib.ParseReference
      (demoDigest.RegistryStr ++ "/" ++ demoDigest.RepositoryStr ++ "@" ++ demoHash.String)
      = .ok demoTarget := by decide
  have hp2 : stdLib.ParseReference demoMissing.String = .ok demoMissingRef := by decide
  have hh2 : demoRemote.Head demoMissingRef [] 0 = (.error "NotFound", 0) := by decide
  ⟨⟨hp, hh, hs, hg, ha, hr, hu, hm, hd, ht⟩,
    ((((((((((errors_propagate stdLib demoRemote demoDigest demoEntity [] 0).1.2 demoRef hp).2
      demoDesc 0 hh).2 demoSigs 0 hs).2 [] 0 hg).2 0 ha).2 demoRaw 0 hr).2 demoManifest hu).2
      demoPushed hm).2 demoHash 418 hd).2 demoTarget ht,
    ⟨hp2, hh2⟩,
    ((errors_propagate stdLib demoRemote demoMissing demoEntity [] 0).1.2 demoMissingRef hp2).1
      "NotFound" 0 hh2⟩

/-- C4: when the head of the subject fails (for whatever reference the subject
parses to), `WriteSignaturesExperimentalOCI` returns an error and its trace
holds no blob write and no manifest put; when the subject parses, the error is
the one head returned and head is the last call made. -/
theorem head_failure_no_write {σ : Type} (lib : Lib) (reg : Remote σ) (d : Digest)
    (se : SignedEntity σ) (opts : List ROption) (w : σ)
    (hhead : ∀ ref, lib.ParseReference d.String = .ok ref →
      ∃ e, (reg.Head ref [] w).1 = .error e) :
    (∃ e, (WriteSignaturesExperimentalOCI lib reg d se opts w).err = some e) ∧
    (∀ ev ∈ (WriteSignaturesExperimentalOCI lib reg d se opts w).trace,
      ev.isWriteLayer = false ∧ ev.isPut = false) ∧
    (∀ ref, lib.ParseReference d.String = .ok ref →
      (WriteSignaturesExperimentalOCI lib reg d se opts w).err = errOf (reg.Head ref [] w).1 ∧
      (WriteSignaturesExperimentalOCI lib reg d se opts w).trace =
        [Event.ParseReference d.String (.ok ref), Event.Head ref [] (reg.Head ref [] w).1] ∧
      (WriteSignaturesExperimentalOCI lib reg d se opts w).world = (reg.Head ref [] w).2) := by
  unfold WriteSignaturesExperimentalOCI
  simp only []
  split
  · rename_i err heq
    refine ⟨⟨err, rfl⟩, by simp [Event.isWriteLayer, Event.isPut], ?_⟩
    intro ref href
    rw [heq] at href
    cases href
  · rename_i ref heq
    obtain ⟨e, he⟩ := hhead ref heq
    rcases hR : reg.Head ref [] w with ⟨res, w1⟩
    rw [hR] at he
    simp only at he
    subst he
    refine ⟨⟨e, rfl⟩, by simp [Event.isWriteLayer, Event.isPut], ?_⟩
    intro ref' href
    rw [heq] at href
    injection href with href
    subst href
    rw [hR]
    exact ⟨rfl, rfl, rfl⟩

/-- C4, at a concrete run: a subject the small registry does not hold. -/
theorem head_failure_no_write_witness :
    (∀ ref, toyLib.ParseReference toyMissing.String = .ok ref →
      ∃ e, (toyRemote.Head ref [] 0).1 = .error e) ∧
    (WriteSignaturesExperimentalOCI toyLib toyRemote toyMissing (toyEntity toyLayers [1, 2]) [] 0).err
      = some "NotFound" ∧
    (WriteSignaturesExperimentalOCI toyLib toyRemote toyMissing (toyEntity toyLayers [1, 2]) [] 0).trace
      = [Event.ParseReference "registry.example/repo@sha256:404"
          (.ok ⟨⟨"", ""⟩, "", "registry.example/repo@sha256:404"⟩),
        Event.Head ⟨⟨"", ""⟩, "", "registry.example/repo@sha256:404"⟩ [] (.error "NotFound")] ∧
    ∀ ev ∈ (WriteSignaturesExperimentalOCI toyLib toyRemote toyMissing
        (toyEntity toyLayers [1, 2]) [] 0).trace,
      ev.isWriteLayer = false ∧ ev.isPut = false :=
  have hh : ∀ ref, toyLib.ParseReference toyMissing.String = .ok ref →
      ∃ e, (toyRemote.Head ref [] 0).1 = .error e := by
    intro ref href
    have : ref = ⟨⟨"", ""⟩, "", "registry.example/repo@sha256:404"⟩ := by
      have h2 : toyLib.ParseReference toyMissing.String
          = .ok ⟨⟨"", ""⟩, "", "registry.example/repo@sha256:404"⟩ := by decide
      rw [h2] at href
      injection href with href
      exact href.symm
    subst this
    exact ⟨"NotFound", by decide⟩
  have hc := head_failure_no_write toyLib toyRemote toyMissing (toyEntity toyLayers [1, 2]) [] 0 hh
  ⟨hh, (hc.2.2 ⟨⟨"", ""⟩, "", "registry.example/repo@sha256:404"⟩ (by decide)).1,
    (hc.2.2 ⟨⟨"", ""⟩, "", "registry.example/repo@sha256:404"⟩ (by decide)).2.1, hc.2.1⟩

/-- C7: the layers the signed entity returns are written to the repository of
the subject one at a time, in the order of the list. When the write of a layer
is the first to fail, the blob writes of the trace are the layers before it,
each written with success, then that layer; the run returns the error of that
write, no layer after it is tried and no manifest put is issued. When no write
fails, the blob writes of the trace are all the layers, in order. -/
theorem layer_writes_in_order {σ : Type} (lib : Lib) (reg : Remote σ) (d : Digest)
    (se : SignedEntity σ) (opts : List ROption) (w w1 w2 w3 : σ)
    (ref : Reference) (desc : Descriptor) (sigs : Signatures σ) (s : List Signature)
    (hparse : lib.ParseReference d.String = .ok ref)
    (hhead : reg.Head ref [] w = (.ok desc, w1))
    (hsigs : se.Signatures w1 = (.ok sigs, w2))
    (hget : sigs.Get w2 = (.ok s, w3)) :
    (∀ (pre : List Signature) (l : Signature) (post : List Signature) (e : GoError) (w4 w5 : σ),
      s = pre ++ l :: post →
      afterWrites reg d.Repository pre w3 = some w4 →
      reg.WriteLayer d.Repository l [] w4 = (some e, w5) →
      (WriteSignaturesExperimentalOCI lib reg d se opts w).err = some e ∧
      (WriteSignaturesExperimentalOCI lib reg d se opts w).trace =
        [Event.ParseReference d.String (.ok ref), Event.Head ref [] (.ok desc),
          Event.Signatures none, Event.Get (.ok s)]
        ++ pre.map (fun v => Event.WriteLayer d.Repository v [] none)
        ++ [Event.WriteLayer d.Repository l [] (some e)] ∧
      (WriteSignaturesExperimentalOCI lib reg d se opts w).trace.filter Event.isWriteLayer =
        pre.map (fun v => Event.WriteLayer d.Repository v [] none)
        ++ [Event.WriteLayer d.Repository l [] (some e)] ∧
      (∀ ev ∈ (WriteSignaturesExperimentalOCI lib reg d se opts w).trace, ev.isPut = false) ∧
      (WriteSignaturesExperimentalOCI lib reg d se opts w).world = w5) ∧
    (∀ w4 : σ, afterWrites reg d.Repository s w3 = some w4 →
      (WriteSignaturesExperimentalOCI lib reg d se opts w).trace.filter Event.isWriteLayer =
        s.map (fun v => Event.WriteLayer d.Repository v [] none)) := by
  constructor
  · intro pre l post e w4 w5 hs hpre hl
    have hloop := writeLayers_first_failure reg d.Repository pre l post w3 w4 w5 e hpre hl
    subst hs
    have hrun : WriteSignaturesExperimentalOCI lib reg d se opts w =
        ⟨some e, [Event.ParseReference d.String (.ok ref), Event.Head ref [] (.ok desc),
          Event.Signatures none, Event.Get (.ok (pre ++ l :: post))]
          ++ pre.map (fun v => Event.WriteLayer d.Repository v [] none)
          ++ [Event.WriteLayer d.Repository l [] (some e)], w5⟩ := by
      unfold WriteSignaturesExperimentalOCI
      simp only [hparse, hhead, hsigs, hget, hloop]
      simp
    rw [hrun]
    refine ⟨rfl, rfl, ?_, ?_, rfl⟩
    · simp [List.filter_append, filter_isWriteLayer_map, List.filter, Event.isWriteLayer]
    · intro ev hev
      simp only [List.mem_append, List.mem_cons, List.mem_singleton, List.mem_map,
        List.not_mem_nil, or_false] at hev
      rcases hev with ((h | h | h | h) | ⟨v, _, h⟩) | h
      all_goals subst h; rfl
  · intro w4 hs
    have hloop := writeLayers_all_ok reg d.Repository s w3 w4 hs
    unfold WriteSignaturesExperimentalOCI
    simp only [hparse, hhead, hsigs, hget, hloop]
    repeat' split
    all_goals
      simp [List.filter_append, filter_isWriteLayer_map, List.filter, Event.isWriteLayer]

/-- C7, at a concrete run: three layers, the write of the second is refused. -/
theorem layer_writes_in_order_witness :
    (toyLib.ParseReference toyDigest.String
        = .ok ⟨⟨"", ""⟩, "", "registry.example/repo@sha256:aaa"⟩ ∧
      toyRemote.Head ⟨⟨"", ""⟩, "", "registry.example/repo@sha256:aaa"⟩ [] 0 = (.ok toyDesc, 0) ∧
      (toyEntity toyLayers [1, 2]).Signatures 0 = (.ok (toySigs toyLayers [1, 2]), 0) ∧
      (toySigs toyLayers [1, 2]).Get 0 = (.ok toyLayers, 0) ∧
      toyLayers = [⟨⟨"sha256", "01"⟩, [1]⟩] ++ ⟨⟨"sha256", "02"⟩, []⟩ :: [⟨⟨"sha256", "03"⟩, [3]⟩] ∧
      afterWrites toyRemote toyDigest.Repository [⟨⟨"sha256", "01"⟩, [1]⟩] 0 = some 1 ∧
      toyRemote.WriteLayer toyDigest.Repository ⟨⟨"sha256", "02"⟩, []⟩ [] 1
        = (some "blob write failed", 1)) ∧
    (WriteSignaturesExperimentalOCI toyLib toyRemote toyDigest (toyEntity toyLayers [1, 2]) [] 0).err
      = some "blob write failed" ∧
    (WriteSignaturesExperimentalOCI toyLib toyRemote toyDigest
        (toyEntity toyLayers [1, 2]) [] 0).trace.filter Event.isWriteLayer
      = [Event.WriteLayer ⟨"registry.example", "repo"⟩ ⟨⟨"sha256", "01"⟩, [1]⟩ [] none,
        Event.WriteLayer ⟨"registry.example", "repo"⟩ ⟨⟨"sha256", "02"⟩, []⟩ []
          (some "blob write failed")] ∧
    (∀ ev ∈ (WriteSignaturesExperimentalOCI toyLib toyRemote toyDigest
        (toyEntity toyLayers [1, 2]) [] 0).trace, ev.isPut = false) ∧
    (WriteSignaturesExperimentalOCI toyLib toyRemote toyDigest
        (toyEntity toyLayers [1, 2]) [] 0).world = 1 :=
  have hc := (layer_writes_in_order toyLib toyRemote toyDigest (toyEntity toyLayers [1, 2]) [] 0 0 0 0
    ⟨⟨"", ""⟩, "", "registry.example/repo@sha256:aaa"⟩ toyDesc (toySigs toyLayers [1, 2]) toyLayers
    (by decide) (by decide) rfl (by decide)).1
    [⟨⟨"sha256", "01"⟩, [1]⟩] ⟨⟨"sha256", "02"⟩, []⟩ [⟨⟨"sha256", "03"⟩, [3]⟩]
    "blob write failed" 1 1 rfl (by decide) (by decide)
  ⟨⟨by decide, by decide, rfl, by decide, rfl, by decide, by decide⟩,
    hc.1, hc.2.2.1, hc.2.2.2.1, hc.2.2.2.2⟩

set_option maxRecDepth 1000000 in
/-- C5 as stated fails. The subject `demoDigest` resolves, the signature
retrieval succeeds and returns no layer, the raw manifest is the JSON text
`demoRawText` of an image manifest without layers (the library's algorithms
are used: the decoding gives `demoManifest`, whose serialization is that text,
the mutated manifest is serialized to `demoPushedText`, hashed with SHA-256 and
the target reference parsed); the run then returns `nil` and issues the
manifest put of `demoPushed` at `demoTarget`: it is not the case that it
returns an error and issues no write. -/
theorem empty_signatures_not_rejected :
    (stdLib.ParseReference demoDigest.String = .ok demoRef ∧
      demoRemote.Head demoRef [] 0 = (.ok demoDesc, 0) ∧
      demoEntity.Signatures 0 = (.ok demoSigs, 0) ∧
      demoSigs.Get 0 = (.ok [], 0) ∧
      demoSigs.RawManifest 0 = (.ok (bytesOf demoRawText), 0) ∧
      stdLib.Unmarshal (bytesOf demoRawText) = .ok demoManifest ∧
      stdLib.Marshal demoManifest = .ok (bytesOf demoRawText) ∧
      stdLib.Marshal (mutateManifest demoManifest demoDesc) = .ok (bytesOf demoPushedText) ∧
      stdLib.SHA256 (bytesOf demoPushedText) = .ok (demoHash, 418)) ∧
    (WriteSignaturesExperimentalOCI stdLib demoRemote demoDigest demoEntity [] 0).err = none ∧
    Event.Put demoTarget ⟨bytesOf demoPushedText, "application/vnd.oci.image.manifest.v1+json"⟩
        [] none ∈
      (WriteSignaturesExperimentalOCI stdLib demoRemote demoDigest demoEntity [] 0).trace ∧
    (∃ ev ∈ (WriteSignaturesExperimentalOCI stdLib demoRemote demoDigest demoEntity [] 0).trace,
      ev.isPut = true) ∧
    ¬ ((∃ e, (WriteSignaturesExperimentalOCI stdLib demoRemote demoDigest demoEntity [] 0).err
          = some e) ∧
        ∀ ev ∈ (WriteSignaturesExperimentalOCI stdLib demoRemote demoDigest demoEntity [] 0).trace,
          ev.isWriteLayer = false ∧ ev.isPut = false) := by
  have herr : (WriteSignaturesExperimentalOCI stdLib demoRemote demoDigest demoEntity [] 0).err
      = none := by decide
  have hput : Event.Put demoTarget
      ⟨bytesOf demoPushedText, "application/vnd.oci.image.manifest.v1+json"⟩ [] none ∈
      (WriteSignaturesExperimentalOCI stdLib demoRemote demoDigest demoEntity [] 0).trace := by
    decide
  refine ⟨⟨by decide, by decide, rfl, by decide, by decide, by decide, by decide, by decide,
    by decide⟩, herr, hput, ⟨_, hput, rfl⟩, ?_⟩
  rintro ⟨⟨e, he⟩, _⟩
  rw [herr] at he
  cases he

/-- C5, amended: when the subject resolves and the signature retrieval succeeds
with no layer, the run issues no blob write and goes on to the retrieval of the
raw manifest; when that and the steps after it (parse, serialization, digest,
parse of the target reference) succeed, it issues the manifest put and returns
what the put returns. -/
theorem empty_signatures_published {σ : Type} (lib : Lib) (reg : Remote σ) (d : Digest)
    (se : SignedEntity σ) (opts : List ROption) (w w1 w2 w3 : σ)
    (ref : Reference) (desc : Descriptor) (sigs : Signatures σ)
    (hparse : lib.ParseReference d.String = .ok ref)
    (hhead : reg.Head ref [] w = (.ok desc, w1))
    (hsigs : se.Signatures w1 = (.ok sigs, w2))
    (hget : sigs.Get w2 = (.ok [], w3)) :
    (∀ ev ∈ (WriteSignaturesExperimentalOCI lib reg d se opts w).trace,
      ev.isWriteLayer = false) ∧
    (∃ rest, (WriteSignaturesExperimentalOCI lib reg d se opts w).trace =
      [Event.ParseReference d.String (.ok ref), Event.Head ref [] (.ok desc),
        Event.Signatures none, Event.Get (.ok []),
        Event.RawManifest (sigs.RawManifest w3).1] ++ rest) ∧
    (∀ (raw : Bytes) (w4 : σ) (m : Manifest) (b : Bytes) (h : Hash) (n : Int)
        (tref : Reference),
      sigs.RawManifest w3 = (.ok raw, w4) →
      lib.Unmarshal raw = .ok m →
      lib.Marshal (mutateManifest m desc) = .ok b →
      lib.SHA256 b = .ok (h, n) →
      lib.ParseReference (d.RegistryStr ++ "/" ++ d.RepositoryStr ++ "@" ++ h.String)
        = .ok tref →
      (WriteSignaturesExperimentalOCI lib reg d se opts w).err
        = (reg.Put tref ⟨b, (mutateManifest m desc).MediaType⟩ [] w4).1 ∧
      (WriteSignaturesExperimentalOCI lib reg d se opts w).trace
        = completeTrace d ref desc [] raw m b h n tref
            (reg.Put tref ⟨b, (mutateManifest m desc).MediaType⟩ [] w4).1 ∧
      (WriteSignaturesExperimentalOCI lib reg d se opts w).world
        = (reg.Put tref ⟨b, (mutateManifest m desc).MediaType⟩ [] w4).2) := by
  refine ⟨?_, ?_, ?_⟩
  · unfold WriteSignaturesExperimentalOCI
    simp only [hparse, hhead, hsigs, hget, writeLayers]
    repeat' split
    all_goals simp [Event.isWriteLayer]
  · unfold WriteSignaturesExperimentalOCI
    simp only [hparse, hhead, hsigs, hget, writeLayers]
    repeat' split
    all_goals simp_all
  · intro raw w4 m b h n tref hraw hu hm hs hp
    rw [← Sprintf_target] at hp
    unfold WriteSignaturesExperimentalOCI
    simp only [hparse, hhead, hsigs, hget, writeLayers, hraw, hu, hm, hs, hp]
    simp [completeTrace]

/-- C5 amended, at a concrete run: the small registry, a subject it holds, no
layer. -/
theorem empty_signatures_published_witness :
    (toyLib.ParseReference toyDigest.String
        = .ok ⟨⟨"", ""⟩, "", "registry.example/repo@sha256:aaa"⟩ ∧
      toyRemote.Head ⟨⟨"", ""⟩, "", "registry.example/repo@sha256:aaa"⟩ [] 0 = (.ok toyDesc, 0) ∧
      (toyEntity [] [1, 2]).Signatures 0 = (.ok (toySigs [] [1, 2]), 0) ∧
      (toySigs [] [1, 2]).Get 0 = (.ok [], 0)) ∧
    (∀ ev ∈ (WriteSignaturesExperimentalOCI toyLib toyRemote toyDigest
        (toyEntity [] [1, 2]) [] 0).trace, ev.isWriteLayer = false) ∧
    (∃ rest, (WriteSignaturesExperimentalOCI toyLib toyRemote toyDigest
        (toyEntity [] [1, 2]) [] 0).trace =
      [Event.ParseReference toyDigest.String
          (.ok ⟨⟨"", ""⟩, "", "registry.example/repo@sha256:aaa"⟩),
        Event.Head ⟨⟨"", ""⟩, "", "registry.example/repo@sha256:aaa"⟩ [] (.ok toyDesc),
        Event.Signatures none, Event.Get (.ok []),
        Event.RawManifest ((toySigs [] [1, 2]).RawManifest 0).1] ++ rest) ∧
    (WriteSignaturesExperimentalOCI toyLib toyRemote toyDigest (toyEntity [] [1, 2]) [] 0).err
      = none ∧
    (WriteSignaturesExperimentalOCI toyLib toyRemote toyDigest (toyEntity [] [1, 2]) [] 0).world
      = 1 :=
  have hc := empty_signatures_published toyLib toyRemote toyDigest (toyEntity [] [1, 2]) [] 0 0 0 0
    ⟨⟨"", ""⟩, "", "registry.example/repo@sha256:aaa"⟩ toyDesc (toySigs [] [1, 2])
    (by decide) (by decide) rfl (by decide)
  ⟨⟨by decide, by decide, rfl, by decide⟩, hc.1, hc.2.1,
    (hc.2.2 [1, 2] 0 (toyManifest 2) toyBytes ⟨"sha256", "e1"⟩ 51
      ⟨⟨"", ""⟩, "", "registry.example/repo@sha256:e1"⟩
      (by decide) (by decide) (by decide) (by decide) (by decide)).1,
    (hc.2.2 [1, 2] 0 (toyManifest 2) toyBytes ⟨"sha256", "e1"⟩ 51
      ⟨⟨"", ""⟩, "", "registry.example/repo@sha256:e1"⟩
      (by decide) (by decide) (by decide) (by decide) (by decide)).2.2⟩

end Cosign
